import Mathlib

/-!
Shallow embedding of `src/tools_factory/price_lock/repricing_script.js`
(function `ConvertSegFinal`) together with proofs about the claims of the
natural-language specification of that transform.

Modelling conventions:
* JS values of unknown/mixed type are modelled by `JVal`
  (number / string / boolean / null / undefined).  JS numbers appearing in
  arithmetic are modelled by `Int` (the source only adds, multiplies and
  compares them, so the structure of the computation is independent of the
  floating point representation).
* A JS object property that the code may find absent is an `Option` field.
* A JS property read on `null`/`undefined` is a `TypeError`; every such
  possibly-throwing access in the source is modelled in the `Except JsErr`
  monad via `deref`.  Reading an absent property of a *non-null object* does
  not throw in JS, it yields `undefined`; such reads are modelled as total.
* The input object `seg_` is mutated by the source (its `Fr`, `l_HB`,
  `CBAMT`, `Comm`, `TDS`, `SF` properties are written); the embedding
  therefore returns the final segment next to the result.  Mutations that
  precede an uncaught throw are not observable in the model (the error
  carries no state), matching what a caller sees of the returned value.
-/

/-- A JavaScript runtime value, as far as this transform distinguishes them. -/
inductive JVal where
  | jnum (n : Int)
  | jstr (s : String)
  | jbool (b : Bool)
  | jnull
  | jundefined
  deriving DecidableEq, Repr, Inhabited

/-- The one fault class the source can raise: a `TypeError` from reading a
property of `null`/`undefined`. -/
inductive JsErr where
  | typeError
  deriving DecidableEq, Repr, Inhabited

/-- Reading a property of a possibly-`undefined` value: `undefined.x` throws. -/
def deref {α : Type} : Option α → Except JsErr α
  | some a => .ok a
  | none => .error .typeError

/-- Association-list lookup, modelling a JS plain-object dictionary read
(`obj[key]`): a missing key yields `undefined` (`none`). -/
def assocLookup {α : Type} (m : List (String × α)) (k : String) : Option α :=
  (m.find? (fun p => p.1 == k)).map (fun p => p.2)

/-- JS string concatenation coerces `undefined` to the text `"undefined"`. -/
def jsConcatStr : Option String → String
  | some s => s
  | none => "undefined"

/-- Coerce an optional value into a `JVal`, with `undefined` for a missing one. -/
def optToJVal : Option JVal → JVal
  | some v => v
  | none => .jundefined

/-- Coerce an optional string into a `JVal` (`undefined` when missing), as when
a JS array read out of range is assigned to a property. -/
def optStrToJVal : Option String → JVal
  | some s => .jstr s
  | none => .jundefined

/-- JS loose equality `v == true` (booleans compare directly; `1` and `"1"`
coerce to `true`; other shapes compare unequal). -/
def jsEqTrue : JVal → Bool
  | .jbool b => b
  | .jnum n => n == 1
  | .jstr s => s == "1"
  | _ => false

/-- `v != null && v == true` on an optional property, as in line 304 of the
source (`seg_.I_RT != null && seg_.I_RT == true`). -/
def jsIsTrueOpt : Option JVal → Bool
  | some v => jsEqTrue v
  | none => false

/-- JS loose equality `v == ""` (the check on line 542 of the source):
`"" == ""`, `0 == ""` and `false == ""` hold; `null`/`undefined` do not. -/
def jsLooseEqEmptyStr : JVal → Bool
  | .jstr s => s == ""
  | .jnum n => n == 0
  | .jbool b => b == false
  | .jnull => false
  | .jundefined => false

/-- Single-separator string split over the character list, matching the JS
`s.split(sep)` calls of the source (whose separators are the single
characters `-` and `|`).  Structural, so that concrete runs reduce. -/
def splitCharsAux (sep : Char) : List Char → List Char → List (List Char)
  | [], acc => [acc.reverse]
  | c :: cs, acc =>
    if c = sep then acc.reverse :: splitCharsAux sep cs []
    else splitCharsAux sep cs (c :: acc)

/-- JS `s.split(sep)` for a one-character separator. -/
def jsSplit (s : String) (sep : Char) : List String :=
  (splitCharsAux sep s.toList []).map String.mk

/-- JS `s.toUpperCase()` (character-wise, structural). -/
def strToUpper (s : String) : String := String.mk (s.toList.map Char.toUpper)

/-- The numeric value of a digit string (structural). -/
def digitsVal (l : List Char) : Nat :=
  l.foldl (fun a c => a * 10 + (c.toNat - 48)) 0

/-- Digit-string to number, for the `Number(...)` coercion JS applies to the
sub-strings fed to `new Date(y, m, d)`; a non-digit string is NaN (`none`). -/
def strToInt? (s : String) : Option Int :=
  if s ≠ "" ∧ s.toList.all Char.isDigit then some (digitsVal s.toList : Nat) else none

/-- JS `parseInt` on the strings this transform feeds it: the leading digit
prefix, `NaN` (`none`) when there is none. -/
def jsParseInt (s : String) : Option Int :=
  let digits := s.toList.takeWhile Char.isDigit
  if digits = [] then none else some (digitsVal digits : Nat)

/-- JS `s.substring(a, b)` (with `a ≤ b`, as used in the source). -/
def jsSubstring (s : String) (a b : Nat) : String :=
  String.mk ((s.toList.drop a).take (b - a))

/-- Order-faithful linearisation of the JS `Date(y, m, d)` constructor value
(`m` is the 0-based JS month index; JS normalises month/day overflow, which
the mixed radix `(y * 12 + m) * 32 + d` respects order-wise for the day
values `0..31` occurring here). -/
def jsDateVal (y m d : Int) : Int :=
  (y * 12 + m) * 32 + d

/-- `GetMonth` from the source (lines 41-57): three-letter month to the
two-digit month string, `undefined` for any other input. -/
def GetMonth (month : String) : Option String :=
  assocLookup
    [("Jan", "01"), ("Feb", "02"), ("Mar", "03"), ("Apr", "04"),
     ("May", "05"), ("Jun", "06"), ("Jul", "07"), ("Aug", "08"),
     ("Sep", "09"), ("Oct", "10"), ("Nov", "11"), ("Dec", "12")] month

/-- One per-passenger-type fare row (`seg_.Fr.L_PF[i]` in the source). -/
structure PaxFare where
  BU : JVal := .jnull
  BW : String := ""
  CNP : JVal := .jnull
  CHP : JVal := .jnull
  FBC : JVal := .jnull
  MKP : Int := 0
  PT : String := ""
  RF : JVal := .jnull
  ESF : Option Int := none
  BF : Int := 0
  TF : Int := 0
  TTX : Int := 0
  COM : Option Int := none
  CB : Option Int := none
  TDS : Option Int := none
  SF : Option Int := none
  TA : Option Int := none
  INSAmtPP : JVal := .jnull
  PXC : JVal := .jnull
  dfValue : JVal := .jnull
  I_ZCAN : JVal := .jnull
  ZCC : JVal := .jnull
  ZCV : JVal := .jnull
  RFIN : JVal := .jnull
  BRSER : JVal := .jnull
  deriving DecidableEq, Repr, Inhabited

/-- One selectable fare option (`seg_.lstFr[i]` in the source). -/
structure FareOption where
  fs : String := ""
  FId : String := ""
  IsHB : Bool := false
  L_PF : List PaxFare := []
  INSP : JVal := .jnull
  CT_UPG : Option JVal := none
  FIAK : Option JVal := none
  FIA : JVal := .jnull
  FN : JVal := .jnull
  ItnanaryKey : JVal := .jnull
  CouponCodeList : Option JVal := none
  isAddCL : JVal := .jnull
  CpnTxtS : JVal := .jnull
  DA : Int := 0
  CC : String := ""
  BDKEY : Option JVal := none
  SID : String := ""
  BF : JVal := .jnull
  TFRMP : JVal := .jnull
  TTXMP : JVal := .jnull
  TF : Int := 0
  TTDIS : Int := 0
  FRTYPID : JVal := .jnull
  FRTYP : JVal := .jnull
  L_Bran : JVal := .jnull
  FR : JVal := .jnull
  deriving DecidableEq, Repr, Inhabited

/-- One raw flight leg, looked up by key in `Res_L.dctFltDtl`. -/
structure FlightLeg where
  AC : String := ""
  OG : String := ""
  DT : String := ""
  DDT : String := ""
  ADT : JVal := .jnull
  DTM : JVal := .jnull
  ATM : JVal := .jnull
  FN : JVal := .jnull
  STP : JVal := .jnull
  CC : JVal := .jnull
  CB : JVal := .jnull
  DUR : JVal := .jnull
  DTER : JVal := .jnull
  ATER : JVal := .jnull
  LOV : JVal := .jnull
  GRP : JVal := .jnull
  ACTYP : JVal := .jnull
  AST : JVal := .jnull
  LOVAT : JVal := .jnull
  LOVDU : JVal := .jnull
  OPB : JVal := .jnull
  ET : JVal := .jnull
  SA : JVal := .jnull
  FlightDetailRefKey : JVal := .jnull
  ProviderCode : JVal := .jnull
  HBU : String := ""
  HBW : Int := 0
  deriving DecidableEq, Repr, Inhabited

/-- One raw bound (`seg_.b[i]` in the source). -/
structure RawBound where
  BDT : JVal := .jnull
  dctCanPo : Option (List (String × JVal)) := none
  FL : Option (List String) := none
  lFC : Option (List String) := none
  LLOV : Option (List JVal) := none
  lstBagg : Option (List String) := none
  lstHBagg : Option (List String) := none
  dctBKKY : Option (List (String × List String)) := none
  dctBagg : Option (List (String × List String)) := none
  BkKY : Option (List String) := none
  JyTm : JVal := .jnull
  CT : JVal := .jnull
  deriving DecidableEq, Repr, Inhabited

/-- The raw provider segment (`seg_`).  `Fr` is the scratch property the
transform itself writes on line 264; an upstream-constructed segment does not
carry it. -/
structure RawSegment where
  id : JVal := .jnull
  BKID : JVal := .jnull
  SD : JVal := .jnull
  SK : JVal := .jnull
  SID : JVal := .jnull
  IK : JVal := .jnull
  DAMT : JVal := .jnull
  FTpInd : JVal := .jnull
  CpnTxtS : JVal := .jnull
  CCL : JVal := .jnull
  IACL : JVal := .jnull
  PT : JVal := .jnull
  b : List RawBound := []
  l_OB : List RawBound := []
  lstFr : List FareOption := []
  Fr : Option FareOption := none
  EID : Int := 0
  RF : JVal := .jnull
  I_RT : Option JVal := none
  CNP : JVal := .jnull
  CHP : JVal := .jnull
  RFIN : JVal := .jnull
  SSK : JVal := .jnull
  CT : JVal := .jnull
  LCP : JVal := .jnull
  AP : JVal := .jnull
  CP : JVal := .jnull
  IP : JVal := .jnull
  TT : JVal := .jnull
  TF : JVal := .jnull
  TTDIS : JVal := .jnull
  APT : Option JVal := none
  CPT : Option JVal := none
  IPT : Option JVal := none
  IHB : JVal := .jnull
  Is_HBT : Option JVal := none
  Nt : JVal := .jnull
  CpNt : JVal := .jnull
  svg : JVal := .jnull
  Ssn : JVal := .jnull
  Rmk : JVal := .jnull
  CC : JVal := .jnull
  VI : JVal := .jnull
  SeatAv : JVal := .jnull
  l_BF : JVal := .jnull
  I_BF : JVal := .jnull
  I_BFAv : JVal := .jnull
  FareRule : Option JVal := none
  CBAMT : Option JVal := none
  Comm : Option JVal := none
  TDS : Option JVal := none
  SF : Option JVal := none
  IsFlightOutOfPolicy : Option JVal := none
  l_HB : Option JVal := none
  deriving DecidableEq, Repr, Inhabited

/-- The lookup-table bundle `Res_L` (leg dictionary, airline names, airport
names, country names). -/
structure ResData where
  dctFltDtl : Option (List (String × FlightLeg)) := none
  C : Option (List (String × String)) := none
  A : Option (List (String × String)) := none
  Cnty : Option (List (String × String)) := none
  deriving DecidableEq, Repr, Inhabited

/-- `GetFltDtl` (lines 15-19): guarded dictionary lookup of a raw leg; any
failed guard or missing key yields `undefined` (`none`). -/
def GetFltDtl (res : Option ResData) (key : String) : Option FlightLeg :=
  res.bind (fun r => r.dctFltDtl.bind (fun m => assocLookup m key))

/-- `GetAirLineName` (lines 21-25). -/
def GetAirLineName (res : Option ResData) (key : String) : Option String :=
  res.bind (fun r => r.C.bind (fun m => assocLookup m key))

/-- `GetAirportName` (lines 26-35): echoes the code itself when the table
entry is blank or absent; yields `undefined` when the table is missing. -/
def GetAirportName (res : Option ResData) (key : String) : Option String :=
  match res with
  | none => none
  | some r =>
    match r.A with
    | none => none
    | some m =>
      match assocLookup m key with
      | some v => if v ≠ "" then some v else some key
      | none => some key

/-- `CountryName` (lines 36-40): the guard tests `Res_L.A` but the body reads
`Res_L.Cnty`, so a missing `Cnty` table under a present `A` table throws. -/
def CountryName (res : Option ResData) (key : String) : Except JsErr (Option String) :=
  match res with
  | none => .ok none
  | some r =>
    match r.A with
    | none => .ok none
    | some _ =>
      match r.Cnty with
      | none => .error .typeError
      | some m => .ok (assocLookup m key)

/-- Lines 133-170 of the source: the legacy engine-id / departure-date
hand-baggage policy block.  It fires only when the raw departure timestamp
splits on `-` into more than one part; the `DD MMM YYYY` portion is the
second part, cut at fixed offsets and fed to `new Date(y, m, d)` (where the
`GetMonth` result is used directly as the 0-based JS month index).  The
returned pair is the value the block leaves in `fLeg_L.HBU` / `fLeg_L.HBW`;
lines 171-172 of the source immediately overwrite both fields with the leg's
native values, so this computation has no effect on the output. -/
def legacyHandBaggage (EID : Int) (DDT : String) : Option (String × Int) :=
  let parts := jsSplit DDT '-'
  if parts.length > 1 then
    let s := parts[1]!
    let depVal : Option Int := do
      let m ← GetMonth (jsSubstring s 2 5)
      let mi ← strToInt? m
      let y ← strToInt? (jsSubstring s 5 9)
      let d ← strToInt? (jsSubstring s 0 2)
      pure (jsDateVal y mi d)
    -- new Date("2020-09-30") / new Date("2020-12-31"): ISO parse, 0-based
    -- month indices 8 and 11.  A NaN component makes every comparison false.
    let leSep : Bool := match depVal with
      | some v => v ≤ jsDateVal 2020 8 30
      | none => false
    let leDec : Bool := match depVal with
      | some v => v ≤ jsDateVal 2020 11 31
      | none => false
    -- lines 142-152: the guard's disjunction (EID != 5 || EID != 10 || EID != 1)
    -- is a tautology, and both branches assign the same ("KG", 7) pair.
    let hb : String × Int :=
      if leSep ∧ (EID ≠ 5 ∨ EID ≠ 10 ∨ EID ≠ 1) then ("KG", 7) else ("KG", 7)
    let hb := if EID = 1 then ("KG", 7) else hb
    let hb := if EID = 0 ∧ leDec then ("KG", 7) else hb
    -- lines 162-165: the `EID == 0` branch is empty (commented out).
    let hb := if EID = 31 then ("KG", 5) else hb
    some hb
  else
    none

/-- One resolved output leg (`fLeg_L`). -/
structure LegOut where
  airName : Option String := none
  org : String := ""
  dest : String := ""
  depDT : String := ""
  HBU : JVal := .jundefined
  HBW : JVal := .jundefined
  arrDT : JVal := .jundefined
  depTM : JVal := .jundefined
  arrTM : JVal := .jundefined
  fltNum : JVal := .jundefined
  airCode : String := ""
  stops : JVal := .jundefined
  currCode : JVal := .jundefined
  cabin : JVal := .jundefined
  duration : JVal := .jundefined
  depTer : JVal := .jundefined
  arrTer : JVal := .jundefined
  fareCls : Option String := none
  LyOvr : JVal := .jundefined
  Group : JVal := .jundefined
  AircraftType : JVal := .jundefined
  AirSeat : JVal := .jundefined
  LayoverAt : JVal := .jundefined
  LayoverDuration : JVal := .jundefined
  OperatedBy : JVal := .jundefined
  BaggageUnit : Option String := none
  BaggageWeight : Option String := none
  EquipmentType : JVal := .jundefined
  SeatAvail : JVal := .jundefined
  FlightDetailRefKey : JVal := .jundefined
  ProviderCode : JVal := .jundefined
  deriving DecidableEq, Repr, Inhabited

/-- One resolved output bound (`Bnd_L`). -/
structure BndOut where
  bndDTL : JVal := .jundefined
  dctCanPo : Option (List (String × JVal)) := none
  Legs : List LegOut := []
  Refundable : String := ""
  IsBaggageFare : Option JVal := none
  JrnyTm : JVal := .jundefined
  ConnType : JVal := .jundefined
  lstCanPo : Option JVal := none
  deriving DecidableEq, Repr, Inhabited

/-- Lines 201-204 of the source: hand baggage from the per-leg hand-baggage
list when it exists and covers the leg, else the leg's native fields (which
lines 171-172 put there, overwriting the legacy block's values). -/
def legHandBaggage (bnd : RawBound) (fleg : FlightLeg) (lc : Nat) : JVal × JVal :=
  match bnd.lstHBagg with
  | some l =>
    match l[lc]? with
    | some entry =>
      let ps := jsSplit entry '|'
      (optStrToJVal ps[0]?, optStrToJVal ps[1]?)
    | none => (.jstr fleg.HBU, .jnum fleg.HBW)
  | none => (.jstr fleg.HBU, .jnum fleg.HBW)

/-- Lines 196-199 of the source: checked baggage from the plain per-leg list
(absent when the list does not cover the leg). -/
def legCheckedBaggage (lstBagg : List String) (lc : Nat) :
    Option String × Option String :=
  match lstBagg[lc]? with
  | some entry =>
    let ps := jsSplit entry '|'
    (ps[0]?, ps[1]?)
  | none => (none, none)

/-- Lines 209-226 of the source: provider code, the per-fare-index override
of the checked baggage, and the `idFareBK` update (line 215).  The result is
`(ProviderCode, BaggageUnit, BaggageWeight, idFareBK update)`; `bu1`/`bw1`
are the incoming checked-baggage values from the per-leg list. -/
def legProviderCode (seg : RawSegment) (bnd : RawBound) (fleg : FlightLeg)
    (fareId lc : Nat) (bu1 bw1 : Option String) :
    Except JsErr (JVal × Option String × Option String × Option String) :=
  match bnd.dctBKKY with
  | some m =>
    if m.length > fareId then
      -- line 215: `seg_.lstFr[fareId].fs` throws when the fare-option list
      -- is missing or too short.
      match seg.lstFr[fareId]? with
      | none => .error .typeError
      | some fr =>
        -- line 216: `dctBKKY[idFareBK].length` throws on a missing key.
        match assocLookup m fr.fs with
        | none => .error .typeError
        | some bkl =>
          if lc < bkl.length then
            -- lines 217-220: `dctBagg[idFareBK][lc].split`, throwing when
            -- the map, the key or the entry is missing.
            match bnd.dctBagg with
            | none => .error .typeError
            | some dB =>
              match assocLookup dB fr.fs with
              | none => .error .typeError
              | some dBl =>
                match dBl[lc]? with
                | none => .error .typeError
                | some entry =>
                  let ps := jsSplit entry '|'
                  .ok (optStrToJVal bkl[lc]?, ps[0]?, ps[1]?, some fr.fs)
          else
            .ok (JVal.jstr "", bu1, bw1, some fr.fs)
    else
      match bnd.BkKY with
      | some l => .ok (optStrToJVal l[lc]?, bu1, bw1, none)
      | none => .ok (fleg.ProviderCode, bu1, bw1, none)
  | none =>
    match bnd.BkKY with
    | some l => .ok (optStrToJVal l[lc]?, bu1, bw1, none)
    | none => .ok (fleg.ProviderCode, bu1, bw1, none)

/-- The output leg record of lines 125-227, given the resolved leg, country
names and provider/baggage tuple. -/
def legRecord (seg : RawSegment) (res : Option ResData) (bnd : RawBound)
    (lc : Nat) (fleg : FlightLeg) (cnOG cnDT : Option String)
    (lfc : List String)
    (pv : JVal × Option String × Option String × Option String) : LegOut :=
  -- lines 133-170 compute the legacy hand-baggage pair
  -- (`legacyHandBaggage`); lines 171-172 unconditionally overwrite it with
  -- the leg's native fields, so it does not appear below.
  let hb := legHandBaggage bnd fleg lc
  { airName := GetAirLineName res fleg.AC
    org := fleg.OG ++ "|" ++ jsConcatStr (GetAirportName res fleg.OG) ++ "|" ++ jsConcatStr cnOG
    dest := fleg.DT ++ "|" ++ jsConcatStr (GetAirportName res fleg.DT) ++ "|" ++ jsConcatStr cnDT
    depDT := fleg.DDT
    HBU := hb.1
    HBW := hb.2
    arrDT := fleg.ADT
    depTM := fleg.DTM
    arrTM := fleg.ATM
    fltNum := fleg.FN
    airCode := fleg.AC
    stops := fleg.STP
    currCode := fleg.CC
    cabin := fleg.CB
    duration := fleg.DUR
    depTer := fleg.DTER
    arrTer := fleg.ATER
    fareCls := lfc[lc]?  -- line 185 (out-of-range reads yield undefined)
    LyOvr :=
      (if lc > 0 then
        match bnd.LLOV with
        | some l => optToJVal l[lc - 1]?
        | none => fleg.LOV
      else fleg.LOV)  -- lines 186-189
    Group := fleg.GRP
    AircraftType := fleg.ACTYP
    AirSeat := fleg.AST
    LayoverAt := fleg.LOVAT
    LayoverDuration := fleg.LOVDU
    OperatedBy := fleg.OPB
    BaggageUnit := pv.2.1
    BaggageWeight := pv.2.2.1
    EquipmentType := fleg.ET
    SeatAvail := fleg.SA
    FlightDetailRefKey := fleg.FlightDetailRefKey
    ProviderCode := pv.1 }

/-- Lines 123-228 of the source: build one output leg from the leg key at
position `lc` of the bound's flight-leg list.  Returns the leg together with
the new value of the shared `idFareBK` variable when line 215 assigned it
(`none` when that branch was not taken). -/
def buildLeg (seg : RawSegment) (res : Option ResData) (bnd : RawBound)
    (fareId : Nat) (lc : Nat) (key : String) :
    Except JsErr (LegOut × Option String) :=
  -- line 124: a missing dictionary entry yields `undefined`; line 126 then
  -- reads `fleg.AC`, which throws on `undefined`.
  match GetFltDtl res key with
  | none => .error .typeError
  | some fleg =>
    let _legacy := legacyHandBaggage seg.EID fleg.DDT  -- dead, lines 133-172
    match CountryName res fleg.OG with
    | .error e => .error e
    | .ok cnOG =>
      match CountryName res fleg.DT with
      | .error e => .error e
      | .ok cnDT =>
        -- line 185: `seg_.b[bc].lFC[lc]` throws when the list is missing.
        match bnd.lFC with
        | none => .error .typeError
        | some lfc =>
          -- line 196: `seg_.b[bc].lstBagg.length` throws when missing.
          match bnd.lstBagg with
          | none => .error .typeError
          | some lstBagg =>
            let bw := legCheckedBaggage lstBagg lc
            match legProviderCode seg bnd fleg fareId lc bw.1 bw.2 with
            | .error e => .error e
            | .ok pv => .ok (legRecord seg res bnd lc fleg cnOG cnDT lfc pv, pv.2.2.2)

/-- The leg loop of lines 123-229, threading the shared `idFareBK` variable. -/
def buildLegs (seg : RawSegment) (res : Option ResData) (bnd : RawBound)
    (fareId : Nat) :
    List String → Nat → String → Except JsErr (List LegOut × String)
  | [], _, idFareBK => .ok ([], idFareBK)
  | k :: ks, lc, idFareBK => do
    let (leg, upd) ← buildLeg seg res bnd fareId lc k
    let (rest, idOut) ← buildLegs seg res bnd fareId ks (lc + 1) (upd.getD idFareBK)
    pure (leg :: rest, idOut)

/-- The canonical output record (`Seg_L`).  Fields the source only assigns on
some paths default to `undefined`/`none` (an absent JS property). -/
structure SegOut where
  id : JVal := .jundefined
  BKID : JVal := .jundefined
  segDTL : JVal := .jundefined
  segKey : JVal := .jundefined
  searchId : JVal := .jundefined
  ItineraryKey : JVal := .jundefined
  SearchOrigin : String := ""
  SearchDestination : String := ""
  DiscountAmount : JVal := .jundefined
  FareTypeInd : JVal := .jundefined
  CpnTxtS : JVal := .jundefined
  CCL : JVal := .jundefined
  IACL : JVal := .jundefined
  bonds : List BndOut := []
  CT_UPG : JVal := .jundefined
  PT : JVal := .jundefined
  selectedFare : JVal := .jundefined
  FareTypeUI : JVal := .jundefined
  Fare : JVal := .jundefined
  INSP : JVal := .jundefined
  INSAmtPP : JVal := .jundefined
  INSAmtKey : JVal := .jundefined
  FIA : JVal := .jundefined
  lstFr : List FareOption := []
  FN : JVal := .jundefined
  CpnLstDis : Option JVal := none
  brandFareKey : Option JVal := none
  AdultPrice : JVal := .jundefined
  ChildPrice : JVal := .jundefined
  InfantPrice : JVal := .jundefined
  AdultPriceT : Option JVal := none
  ChildPriceT : Option JVal := none
  InfantPriceT : Option JVal := none
  TotalTax : JVal := .jundefined
  TotalFare : JVal := .jundefined
  ESF : Option JVal := none
  MarkUP : Option JVal := none
  ttlDiscount : JVal := .jundefined
  CancePenalty : JVal := .jundefined
  ChangPenalty : JVal := .jundefined
  Refundable : JVal := .jundefined
  RefundableIn : JVal := .jundefined
  SpecialSegKey : JVal := .jundefined
  ConnType : JVal := .jundefined
  lstCanPo : JVal := .jundefined
  lstOutBound : List JVal := []
  lstInBound : List JVal := []
  IsHndBagg : JVal := .jundefined
  IsHndBaggTp : JVal := .jundefined
  Note : JVal := .jundefined
  CouponNote : JVal := .jundefined
  IsRoundTrip : JVal := .jundefined
  EngineId : JVal := .jundefined
  Saving : JVal := .jundefined
  Ssn : JVal := .jundefined
  Remark : JVal := .jundefined
  CouponCode : JVal := .jundefined
  VisaInfo : JVal := .jundefined
  SeatAvailablity : JVal := .jundefined
  listBrandfare : JVal := .jundefined
  IsBranded : JVal := .jundefined
  IsBrandeFareAvailabel : JVal := .jundefined
  FareRule : Option JVal := none
  CBAMT : Option JVal := none
  Comm : Option JVal := none
  TDS : Option JVal := none
  SF : Option JVal := none
  IsFlightOutOfPolicy : Option JVal := none
  deriving DecidableEq, Repr, Inhabited

/-- Lines 110-259 of the source: process one bound.  `idIn` / `isHndIn` are
the incoming values of the shared mutable variables `idFareBK` and
`isHndBGG`; the processed bound is returned with their outgoing values. -/
def processBound (seg : RawSegment) (res : Option ResData) (fareId : Nat)
    (bnd : RawBound) (idIn : String) (isHndIn : Bool) :
    Except JsErr (BndOut × String × Bool) := do
  -- lines 117-122 assign the outer variable `FL` (with an outbound-list
  -- fallback), but the loop on line 123 iterates over `seg_.b[bc].FL`
  -- directly, so the fallback is dead; a missing `FL` list throws here.
  let fl ← deref bnd.FL
  let (legs, idOut) ← buildLegs seg res bnd fareId fl 0 idIn
  -- line 231
  let refundable0 := if jsEqTrue seg.RF then "Refundable" else "Non-Refundable"
  -- lines 232-240 (also writes `seg_.l_HB`, applied at top level)
  let (refundable, isBagFare, isHnd1) ←
    if seg.lstFr = [] then
      pure (refundable0, none, isHndIn)
    else do
      -- line 234: `seg_.lstFr[fareId].L_PF[0].RF` throws when the index is
      -- out of range or the row list is empty.
      let fr ← deref seg.lstFr[fareId]?
      let p0 ← deref fr.L_PF.head?
      pure ((if p0.RF = JVal.jstr "True" then "Refundable" else "Non-Refundable"),
            some (JVal.jbool fr.IsHB), fr.IsHB)
  -- lines 242-251: try/catch around `parseInt(seg_.lstFr[fareId].L_PF[0].BW)`;
  -- any throw inside is swallowed, leaving the values unchanged.
  let (isBagFare2, isHnd2) :=
    match seg.lstFr[fareId]?.bind (fun fr => fr.L_PF.head?) with
    | some p0 =>
      match jsParseInt p0.BW with
      | some n => if n > 0 then (some (JVal.jbool false), false) else (isBagFare, isHnd1)
      | none => (isBagFare, isHnd1)
    | none => (isBagFare, isHnd1)
  -- lines 252-258: `dctCanPo[idFareBK]` with the idFareBK value left by the
  -- leg loop; a missing key yields `undefined` (the try/catch cannot fire).
  let lstCanPo := bnd.dctCanPo.bind (fun m => assocLookup m idOut)
  pure ({ bndDTL := bnd.BDT
          dctCanPo := bnd.dctCanPo
          Legs := legs
          Refundable := refundable
          IsBaggageFare := isBagFare2
          JrnyTm := bnd.JyTm
          ConnType := bnd.CT
          lstCanPo := lstCanPo : BndOut }, idOut, isHnd2)

/-- The bound loop of lines 108-260, threading `idFareBK` and `isHndBGG`. -/
def processBounds (seg : RawSegment) (res : Option ResData) (fareId : Nat) :
    List RawBound → String → Bool → Except JsErr (List BndOut × String × Bool)
  | [], idFareBK, isHnd => .ok ([], idFareBK, isHnd)
  | bnd :: rest, idFareBK, isHnd => do
    let (bo, id1, h1) ← processBound seg res fareId bnd idFareBK isHnd
    let (bs, id2, h2) ← processBounds seg res fareId rest id1 h1
    pure (bo :: bs, id2, h2)

/-- The net effect of line 238 (`seg_.l_HB = seg_.lstFr[fareId].IsHB`): it
runs once per bound, always with the same value, so after a completed bound
loop the segment's `l_HB` is written exactly when there is at least one bound
and the fare-option list is non-empty. -/
def applyLHB (seg : RawSegment) (fareId : Nat) : RawSegment :=
  if seg.b ≠ [] ∧ seg.lstFr ≠ [] then
    match seg.lstFr[fareId]? with
    | some fr => { seg with l_HB := some (.jbool fr.IsHB) }
    | none => seg
  else seg

/-- Lines 59-79 of the source: the initial output record. -/
def baseOut (seg : RawSegment) (org des : String) (bnds : List BndOut) : SegOut :=
  { id := seg.id
    BKID := seg.BKID
    segDTL := seg.SD
    segKey := seg.SK
    searchId := seg.SID
    ItineraryKey := seg.IK
    SearchOrigin := org
    SearchDestination := des
    DiscountAmount := seg.DAMT
    FareTypeInd := seg.FTpInd
    CpnTxtS := seg.CpnTxtS
    CCL := seg.CCL
    IACL := seg.IACL
    bonds := bnds
    CT_UPG := .jstr ""
    PT := seg.PT
    selectedFare := .jnum 0
    FareTypeUI := .jnum 0 }

/-- The output-record update of lines 279-317, for a selected fare option
`fr` with first passenger row `p0`.  The coupon block (lines 298-313) adopts
the option's coupon-code list verbatim unless `seg_.I_RT == true`, in which
case all four coupon fields are cleared. -/
def applyFareOut (seg : RawSegment) (out : SegOut) (fr : FareOption)
    (p0 : PaxFare) (fareId : Nat) : SegOut :=
  let flagged := jsIsTrueOpt seg.I_RT
  let (ccl, iacl, cpnTxtS, cpnLstDis, discountAmount) :=
    match fr.CouponCodeList with
    | some c =>
      if flagged then
        (JVal.jstr "", JVal.jbool false, JVal.jstr "", some (JVal.jnum 0),
         out.DiscountAmount)
      else
        (c, fr.isAddCL, fr.CpnTxtS, some (JVal.jnum fr.DA), out.DiscountAmount)
    | none =>
      if fr.CC ≠ "" then
        (out.CCL, out.IACL, out.CpnTxtS, out.CpnLstDis, JVal.jnum fr.DA)
      else
        (out.CCL, out.IACL, out.CpnTxtS, out.CpnLstDis, out.DiscountAmount)
  { out with
    INSP := fr.INSP
    CT_UPG := (match fr.CT_UPG with | some v => v | none => out.CT_UPG)
    INSAmtPP := p0.INSAmtPP
    INSAmtKey := optToJVal fr.FIAK  -- lines 288-290
    FIA := fr.FIA
    lstFr := seg.lstFr
    selectedFare := .jnum (Int.ofNat fareId)
    FN := fr.FN
    ItineraryKey := fr.ItnanaryKey  -- line 297
    CCL := ccl
    IACL := iacl
    CpnTxtS := cpnTxtS
    CpnLstDis := cpnLstDis
    DiscountAmount := discountAmount
    brandFareKey := (match fr.BDKEY with | some k => some k | none => out.brandFareKey) }

/-- Lines 265-278 of the source: the fare-armory accumulator update.  The
`frArmy` / `frArmyRT` reassignments are to the function's own parameters, and
JS strings are passed by value, so the updated pair never reaches the caller;
the computation is recorded here but has no effect on the returned record. -/
def frArmyNext (frArmy frArmyRT : String) (fr : FareOption) : String × String :=
  let frArmyRT1 := (if frArmyRT ≠ "" then frArmyRT ++ "," else frArmyRT) ++ fr.FId
  if frArmy = "9" ∨ frArmy = "10" ∨ frArmy = "11" ∨ frArmy = "21" then
    (frArmy, frArmyRT1)
  else
    (fr.FId, frArmyRT1)

/-- Lines 262-318 of the source: fare selection.  Returns the updated output
record and the updated segment (line 264 writes `seg_.Fr`).  The armory
update of lines 265-278 (`frArmyNext`) is caller-invisible (see its
docstring) and is therefore not threaded further; its only possible fault,
reading `.FId` of `seg_.lstFr[fareId]`, is the `deref` of the selected
option below. -/
def applyFare (seg : RawSegment) (out0 : SegOut) (frArmy frArmyRT : String)
    (fareId : Nat) : Except JsErr (SegOut × RawSegment) :=
  let out := { out0 with Fare := JVal.jnull }  -- line 262
  if seg.lstFr = [] then .ok (out, seg)        -- line 263 guard
  else
    match seg.lstFr[fareId]? with
    | none => .error .typeError  -- lines 271/277: `.FId` on `undefined`
    | some fr =>
      match fr.L_PF.head? with
      | none => .error .typeError  -- line 287: `L_PF[0].INSAmtPP` on `undefined`
      | some p0 =>
        .ok (applyFareOut seg out fr p0 fareId, { seg with Fr := some fr })

/-- The running totals of the price-aggregation loop (lines 319-341). -/
structure PaxAgg where
  adult : Int := 0
  child : Int := 0
  infant : Int := 0
  adultT : Int := 0
  childT : Int := 0
  infantT : Int := 0
  totalTF : Int := 0
  totalTT : Int := 0
  totalMRKP : Int := 0
  stf : Int := 0
  tds : Int := 0
  serviceFee : Int := 0
  cashBack : Int := 0
  commission : Int := 0
  transactionFees : Int := 0
  totalExSeatFare : Int := 0
  deriving DecidableEq, Repr, Inhabited

/-- Add `v * n` to `acc` when the optional field `v` is present, as in the
`if (… != null) { total += … * count }` guards of lines 364-426. -/
def addOpt (o : Option Int) (n : Int) (acc : Int) : Int :=
  match o with
  | some v => acc + v * n
  | none => acc

/-- One iteration of the passenger-fare loop (lines 344-441): the extra-seat
fee accumulates regardless of type (lines 355-357); the three passenger-type
branches match `PT.toUpperCase()` against `ADULT` / `CHILD` / `INFANT`; any
other label falls through every branch and contributes to no bucket.  The
`STF += 0` statements of the source are no-ops and `stf` stays unchanged. -/
def paxStep (NoAdt NoChd NoInf : Int) (a : PaxAgg) (r : PaxFare) : PaxAgg :=
  let esf := addOpt r.ESF 1 a.totalExSeatFare
  let u := strToUpper r.PT
  if u = "ADULT" then
    { a with
      totalExSeatFare := esf
      adult := a.adult + r.BF * NoAdt
      totalTF := a.totalTF + r.TF * NoAdt
      totalTT := a.totalTT + r.TTX * NoAdt
      adultT := a.adultT + r.TTX * NoAdt
      totalMRKP := a.totalMRKP + r.MKP * NoAdt
      commission := addOpt r.COM NoAdt a.commission
      cashBack := addOpt r.CB NoAdt a.cashBack
      tds := addOpt r.TDS NoAdt a.tds
      serviceFee := addOpt r.SF NoAdt a.serviceFee
      transactionFees := addOpt r.TA NoAdt a.transactionFees }
  else if u = "CHILD" then
    { a with
      totalExSeatFare := esf
      child := a.child + r.BF * NoChd
      totalTF := a.totalTF + r.TF * NoChd
      totalTT := a.totalTT + r.TTX * NoChd
      childT := a.childT + r.TTX * NoChd
      totalMRKP := a.totalMRKP + r.MKP * NoChd
      commission := addOpt r.COM NoChd a.commission
      cashBack := addOpt r.CB NoChd a.cashBack
      tds := addOpt r.TDS NoChd a.tds
      serviceFee := addOpt r.SF NoChd a.serviceFee
      transactionFees := addOpt r.TA NoChd a.transactionFees }
  else if u = "INFANT" then
    { a with
      totalExSeatFare := esf
      infant := a.infant + r.BF * NoInf
      totalTF := a.totalTF + r.TF * NoInf
      totalTT := a.totalTT + r.TTX * NoInf
      infantT := a.infantT + r.TTX * NoInf
      totalMRKP := a.totalMRKP + r.MKP * NoInf
      commission := addOpt r.COM NoInf a.commission
      cashBack := addOpt r.CB NoInf a.cashBack
      tds := addOpt r.TDS NoInf a.tds
      serviceFee := addOpt r.SF NoInf a.serviceFee
      transactionFees := addOpt r.TA NoInf a.transactionFees }
  else
    { a with totalExSeatFare := esf }

/-- Lines 343-442 of the source as a fold (an empty row list leaves every
total at zero, exactly like the skipped loop). -/
def aggregatePax (rows : List PaxFare) (NoAdt NoChd NoInf : Int) : PaxAgg :=
  rows.foldl (paxStep NoAdt NoChd NoInf) {}

/-- The fare sub-record assembled on lines 444-454 of the source.  Line 455
replaces `Seg_L.Fare` with the caller-supplied `FFare_L` immediately after,
so this record never reaches the output. -/
structure FareAssembly where
  lstPxPF : List JVal := []
  BscFr : JVal := .jundefined
  TtlFrWthMkp : JVal := .jundefined
  TtlTxWthMkp : JVal := .jundefined
  TTLFr : JVal := .jundefined
  lstTxDt : List JVal := []
  ttlDiscount : JVal := .jundefined
  FareTypeID : JVal := .jundefined
  FareType : JVal := .jundefined
  BrandKeys : JVal := .jundefined
  Branded : JVal := .jundefined
  FareRule : JVal := .jundefined
  deriving DecidableEq, Repr, Inhabited

/-- Lines 444-454: the (immediately overwritten) fare sub-record. -/
def assembledFareRecord (fr : FareOption) : FareAssembly :=
  { lstPxPF := []
    BscFr := fr.BF
    TtlFrWthMkp := fr.TFRMP
    TtlTxWthMkp := fr.TTXMP
    TTLFr := .jnum fr.TF
    lstTxDt := []
    ttlDiscount := .jnum fr.TTDIS
    FareTypeID := fr.FRTYPID
    FareType := fr.FRTYP
    BrandKeys := optToJVal fr.BDKEY
    Branded := fr.L_Bran
    FareRule := fr.FR }

/-- The output-record update of lines 320-480 (the selected-fare pricing
path): passenger-count-weighted totals from `aggregatePax`, the `Fare` field
replaced by the caller-supplied final fare (line 455), and the
cancellation-policy list from the first bound when present (lines 476-480). -/
def applyPricingSelOut (seg1 : RawSegment) (out : SegOut) (fr : FareOption)
    (b0 : BndOut) (NoAdt NoChd NoInf : Int) (FFare : JVal) : SegOut :=
  let agg := aggregatePax fr.L_PF NoAdt NoChd NoInf
  { out with
    searchId := (if fr.SID ≠ "" then .jstr fr.SID else out.searchId)
    Fare := FFare  -- line 455 overwrites the assembled record
    AdultPrice := .jnum agg.adult
    ChildPrice := .jnum agg.child
    InfantPrice := .jnum agg.infant
    AdultPriceT := some (.jnum agg.adultT)
    ChildPriceT := some (.jnum agg.childT)
    InfantPriceT := some (.jnum agg.infantT)
    TotalTax := .jnum agg.totalTT
    TotalFare := .jnum (agg.totalTF + agg.totalMRKP)
    ESF := some (.jnum agg.totalExSeatFare)
    MarkUP := some (.jnum agg.totalMRKP)
    ttlDiscount := .jnum (agg.totalTF + agg.totalMRKP)
    CancePenalty := seg1.CNP
    ChangPenalty := seg1.CHP
    Refundable := seg1.RF
    RefundableIn := seg1.RFIN
    SpecialSegKey := seg1.SSK
    ConnType := seg1.CT
    lstCanPo := (match b0.lstCanPo with | some v => v | none => seg1.LCP) }

/-- Lines 481-484 of the source: the selected-fare path writes the four
aggregated totals back onto the input segment. -/
def applyPricingSelSeg (seg1 : RawSegment) (fr : FareOption)
    (NoAdt NoChd NoInf : Int) : RawSegment :=
  let agg := aggregatePax fr.L_PF NoAdt NoChd NoInf
  { seg1 with
    CBAMT := some (.jnum agg.cashBack)
    Comm := some (.jnum agg.commission)
    TDS := some (.jnum agg.tds)
    SF := some (.jnum agg.serviceFee) }

/-- Lines 485-513 of the source: the flat segment-level pricing fallback. -/
def applyPricingFlatOut (seg1 : RawSegment) (out : SegOut) (b0 : BndOut) : SegOut :=
  { out with
    AdultPrice := seg1.AP
    AdultPriceT := (match seg1.APT with | some v => some v | none => out.AdultPriceT)
    ChildPrice := seg1.CP
    ChildPriceT := (match seg1.CPT with | some v => some v | none => out.ChildPriceT)
    InfantPrice := seg1.IP
    InfantPriceT := (match seg1.IPT with | some v => some v | none => out.InfantPriceT)
    TotalTax := seg1.TT
    TotalFare := seg1.TF
    ttlDiscount := seg1.TTDIS
    CancePenalty := seg1.CNP
    ChangPenalty := seg1.CHP
    Refundable := seg1.RF
    RefundableIn := seg1.RFIN
    SpecialSegKey := seg1.SSK
    ConnType := seg1.CT
    lstCanPo := (match b0.lstCanPo with | some v => v | none => seg1.LCP) }

/-- Lines 319-514 of the source: the price aggregation (when a fare option is
selected, `seg_.Fr != null`) or the flat segment-level fallback (otherwise).
Both paths read `Seg_L.bonds[0].lstCanPo` (lines 476/508), which throws when
the bound list is empty. -/
def applyPricing (seg1 : RawSegment) (out : SegOut) (NoAdt NoChd NoInf : Int)
    (FFare : JVal) : Except JsErr (SegOut × RawSegment) :=
  match seg1.Fr with
  | some fr =>
    -- lines 444-454 build `assembledFareRecord fr`, discarded by line 455.
    match out.bonds.head? with
    | none => .error .typeError  -- line 476: `bonds[0].lstCanPo` on `undefined`
    | some b0 =>
      .ok (applyPricingSelOut seg1 out fr b0 NoAdt NoChd NoInf FFare,
           applyPricingSelSeg seg1 fr NoAdt NoChd NoInf)
  | none =>
    match out.bonds.head? with
    | none => .error .typeError  -- line 508
    | some b0 =>
      .ok (applyPricingFlatOut seg1 out b0, seg1)

/-- Lines 533-541 of the source: the coupon code comes from the selected
option when its discounted total is strictly below its total fare, and is
blanked otherwise; with an empty fare-option list it is the segment-level
flat field. -/
def tailCouponCode (seg2 : RawSegment) (fareId : Nat) : Except JsErr JVal :=
  if seg2.lstFr = [] then .ok seg2.CC
  else
    -- line 534: `seg_.lstFr[fareId].TTDIS` throws when the index is out of
    -- range.
    match seg2.lstFr[fareId]? with
    | none => .error .typeError
    | some fr => .ok (if fr.TTDIS < fr.TF then JVal.jstr fr.CC else JVal.jstr "")

/-- The output-record update of lines 515-578, given the resolved coupon
code: line 542 zeroes the discount amount under the loose comparison
`CouponCode == ""`; the block on lines 545-551 is guarded by `isRT_ && false`
and can never run; the final read `seg_.IsFlightOutOfPolicy` (line 578) is a
property access on an object that is known non-null, so it cannot throw and
the catch on lines 579-581 is unreachable. -/
def applyTailOut (seg2 : RawSegment) (out : SegOut) (org des : String)
    (isHnd : Bool) (isRT : Bool) (couponCode0 : JVal) : SegOut :=
  let discountAmount :=
    if jsLooseEqEmptyStr couponCode0 then JVal.jnum 0 else out.DiscountAmount
  let (couponCode, ccl, iacl, cpnTxtS, cpnLstDis) :=
    if isRT ∧ False then
      (JVal.jstr "", JVal.jstr "", JVal.jstr "", JVal.jstr "", some (JVal.jnum 0))
    else
      (couponCode0, out.CCL, out.IACL, out.CpnTxtS, out.CpnLstDis)
  { out with
          lstOutBound := []
          lstInBound := []
          IsHndBagg := seg2.IHB
          IsHndBaggTp := (match seg2.Is_HBT with | some v => v | none => .jbool isHnd)
          Note := seg2.Nt
          CouponNote := seg2.CpNt
          IsRoundTrip := optToJVal seg2.I_RT
          EngineId := .jnum seg2.EID
          Saving := seg2.svg
          Ssn := seg2.Ssn
          Remark := seg2.Rmk
          CouponCode := couponCode
          DiscountAmount := discountAmount
          CCL := ccl
          IACL := iacl
          CpnTxtS := cpnTxtS
          CpnLstDis := cpnLstDis
          VisaInfo := seg2.VI
          SeatAvailablity := seg2.SeatAv
          SearchOrigin := org
          SearchDestination := des
          listBrandfare := seg2.l_BF
          IsBranded := seg2.I_BF
          IsBrandeFareAvailabel := seg2.I_BFAv
          FareTypeInd := seg2.FTpInd
          FareRule := (match seg2.FareRule with | some v => some v | none => out.FareRule)
          CBAMT := (match seg2.CBAMT with | some v => some v | none => out.CBAMT)
          Comm := (match seg2.Comm with | some v => some v | none => out.Comm)
          TDS := (match seg2.TDS with | some v => some v | none => out.TDS)
          SF := (match seg2.SF with | some v => some v | none => out.SF)
          IsFlightOutOfPolicy := seg2.IsFlightOutOfPolicy }

/-- Lines 515-582 of the source up to the (unreachable) catch: resolve the
coupon code, then apply the tail update. -/
def applyTail (seg2 : RawSegment) (out : SegOut) (org des : String)
    (isHnd : Bool) (isRT : Bool) (fareId : Nat) : Except JsErr SegOut :=
  match tailCouponCode seg2 fareId with
  | .error e => .error e
  | .ok couponCode => .ok (applyTailOut seg2 out org des isHnd isRT couponCode)

/-- The result shape handed to the caller: the success path serialises the
record (`JSON.stringify`, line 582), the dead fail-soft path of lines 579-581
would hand back the raw record unserialised. -/
inductive ConvertResult where
  | serialized (s : SegOut)
  | raw (s : SegOut)
  deriving DecidableEq, Repr, Inhabited

/-- The record carried by either result shape. -/
def ConvertResult.record : ConvertResult → SegOut
  | .serialized s => s
  | .raw s => s

/-- `true` exactly on the serialised (success-path) result shape. -/
def ConvertResult.isSerialized : ConvertResult → Bool
  | .serialized _ => true
  | .raw _ => false

/-- The whole transform body up to serialisation: bound loop, fare selection,
price aggregation, output tail, in source order, plus the segment mutations. -/
def convertCore (seg : RawSegment) (res : Option ResData) (org des : String)
    (frArmy frArmyRT : String) (NoAdt NoChd NoInf : Int) (FFare : JVal)
    (isRT : Bool) (fareId : Nat) : Except JsErr (SegOut × RawSegment) :=
  match processBounds seg res fareId seg.b "" false with
  | .error e => .error e
  | .ok (bnds, _, isHnd) =>
    let seg0 := applyLHB seg fareId
    match applyFare seg0 (baseOut seg org des bnds) frArmy frArmyRT fareId with
    | .error e => .error e
    | .ok (out1, seg1) =>
      match applyPricing seg1 out1 NoAdt NoChd NoInf FFare with
      | .error e => .error e
      | .ok (out2, seg2) =>
        match applyTail seg2 out2 org des isHnd isRT fareId with
        | .error e => .error e
        | .ok out3 => .ok (out3, seg2)

/-- `ConvertSegFinal` (lines 1-583 of the source): on normal completion the
record is serialised and returned together with the (mutated) input segment;
an uncaught `TypeError` propagates to the caller. -/
def ConvertSegFinal (seg : RawSegment) (res : Option ResData) (org des : String)
    (frArmy frArmyRT : String) (NoAdt NoChd NoInf : Int) (FFare : JVal)
    (isRT : Bool) (fareId : Nat) : Except JsErr (ConvertResult × RawSegment) :=
  match convertCore seg res org des frArmy frArmyRT NoAdt NoChd NoInf FFare isRT fareId with
  | .error e => .error e
  | .ok (out, seg2) => .ok (.serialized out, seg2)

/-! ### Result extractors and concrete evaluation inputs -/

/-- The canonical record of a completed run, `none` on a thrown run. -/
def runRecord (e : Except JsErr (ConvertResult × RawSegment)) : Option SegOut :=
  match e with
  | .ok (r, _) => some r.record
  | .error _ => none

/-- The final (possibly mutated) segment of a completed run. -/
def runSeg (e : Except JsErr (ConvertResult × RawSegment)) : Option RawSegment :=
  match e with
  | .ok (_, s) => some s
  | .error _ => none

/-- The first leg of the first bound of a completed run's record. -/
def runFirstLeg (e : Except JsErr (ConvertResult × RawSegment)) : Option LegOut :=
  (runRecord e).bind (fun o => o.bonds.head?.bind (fun b => b.Legs.head?))

/-- Whether a run completed on the serialising success path. -/
def runIsSerialized (e : Except JsErr (ConvertResult × RawSegment)) : Bool :=
  match e with
  | .ok (r, _) => r.isSerialized
  | .error _ => false

/-- A raw leg with native hand baggage 10 LB, departing before every legacy
cutoff (15 Sep 2020). -/
def legacyFleg : FlightLeg :=
  { AC := "AI", OG := "DEL", DT := "BOM", DDT := "Tue-15Sep2020",
    HBU := "LB", HBW := 10 }

def legacyRes : ResData :=
  { dctFltDtl := some [("K", legacyFleg)], C := some [], A := some [], Cnty := some [] }

def legacyBnd : RawBound := { FL := some ["K"], lFC := some ["Y"], lstBagg := some [] }

/-- An engine-id-1 segment with one bound and no per-fare or per-leg baggage
data: per the legacy table its legs should get the 7 KG hand-baggage default. -/
def legacySeg : RawSegment := { b := [legacyBnd], EID := 1 }

def legacyRun : Except JsErr (ConvertResult × RawSegment) :=
  ConvertSegFinal legacySeg (some legacyRes) "DEL" "BOM" "" "" 1 0 0 .jnull false 0

def legacyLegPair : LegOut × Option String :=
  (buildLeg legacySeg (some legacyRes) legacyBnd 0 0 "K").toOption.get!

/-- A raw leg with native hand baggage 10 KG for the baggage-precedence
scenario. -/
def pfFleg : FlightLeg :=
  { AC := "AI", OG := "DEL", DT := "BOM", DDT := "Tue-15Sep2020",
    HBU := "KG", HBW := 10 }

def pfRes : ResData :=
  { dctFltDtl := some [("K", pfFleg)], C := some [], A := some [], Cnty := some [] }

def pfOpt : FareOption :=
  { fs := "fs1", FId := "7", L_PF := [{ PT := "Adult", BF := 100, TF := 120, TTX := 20 }],
    TF := 120, TTDIS := 100, CC := "SAVE", DA := 15 }

/-- A bound with all three baggage tiers populated: a per-fare-index
booking-key/baggage map (`PC|2`), a plain per-leg baggage list (`XX|9`), and
a leg carrying legacy-eligible engine/date data. -/
def pfBnd : RawBound :=
  { FL := some ["K"], lFC := some ["Y"], lstBagg := some ["XX|9"],
    dctBKKY := some [("fs1", ["BK0"])], dctBagg := some [("fs1", ["PC|2"])] }

def pfSeg : RawSegment := { b := [pfBnd], EID := 0, lstFr := [pfOpt] }

def pfRun : Except JsErr (ConvertResult × RawSegment) :=
  ConvertSegFinal pfSeg (some pfRes) "DEL" "BOM" "" "" 1 0 0 .jnull false 0

def pfLegPair : LegOut × Option String :=
  (buildLeg pfSeg (some pfRes) pfBnd 0 0 "K").toOption.get!

/-- Passenger-fare rows exercising all three matched labels (in mixed case),
an unmatched label, and partially absent optional fee fields. -/
def aggRows : List PaxFare :=
  [{ PT := "Adult", BF := 100, TF := 120, TTX := 20, MKP := 1, COM := some 2, TDS := some 1 },
   { PT := "child", BF := 50, TF := 60, TTX := 10, CB := some 4 },
   { PT := "INFANT", BF := 10, TF := 12, TTX := 2, SF := some 5, TA := some 6 },
   { PT := "Senior", BF := 999, TF := 999, TTX := 999, COM := some 999 }]

def aggOpt : FareOption :=
  { FId := "3", L_PF := aggRows, TF := 120, TTDIS := 100, CC := "CD" }

def aggSeg : RawSegment :=
  { b := [{ FL := some [], lFC := some [], lstBagg := some [] }], lstFr := [aggOpt] }

def aggRun : Except JsErr (ConvertResult × RawSegment) :=
  ConvertSegFinal aggSeg none "o" "d" "" "" 2 3 1 (.jstr "FINALFARE") false 0

def aggPair : ConvertResult × RawSegment := aggRun.toOption.get!

/-- A segment with an empty fare-option list and the flat price fields of the
specification's worked example (AP=100, CP=50, TT=20, TF=120). -/
def flatSeg : RawSegment :=
  { b := [{ FL := some [], lFC := some [], lstBagg := some [] }]
    AP := .jnum 100
    CP := .jnum 50
    IP := .jnum 7
    TT := .jnum 20
    TF := .jnum 120
    TTDIS := .jnum 3 }

def flatRun : Except JsErr (ConvertResult × RawSegment) :=
  ConvertSegFinal flatSeg none "o" "d" "" "" 0 0 0 .jnull false 0

def flatPair : ConvertResult × RawSegment := flatRun.toOption.get!

/-- A lookup bundle whose flight-detail dictionary has no entries, so every
leg key is missing. -/
def missRes : ResData := { dctFltDtl := some [] }

def missSeg : RawSegment := { b := [{ FL := some ["K1"] }] }

def missSeg2 : RawSegment := { b := [{ FL := some ["M", "N"] }] }

def mutOpt : FareOption :=
  { FId := "5", IsHB := true, L_PF := [{ PT := "Adult", BF := 10, CB := some 3 }],
    TF := 100, TTDIS := 100, CC := "CP" }

/-- A segment carrying a selectable fare option, used to observe the
write-back mutations. -/
def mutSeg : RawSegment :=
  { b := [{ FL := some [], lFC := some [], lstBagg := some [] }], lstFr := [mutOpt] }

def mutRun : Except JsErr (ConvertResult × RawSegment) :=
  ConvertSegFinal mutSeg none "o" "d" "" "" 1 0 0 (.jstr "FF") false 0

def mutPair : ConvertResult × RawSegment := mutRun.toOption.get!

def rtOpt : FareOption :=
  { FId := "7", L_PF := [{ PT := "Adult", BF := 5 }], TF := 120, TTDIS := 100,
    CC := "SAVE", DA := 15, CouponCodeList := some (.jstr "SAVE,X"),
    isAddCL := .jbool true, CpnTxtS := .jstr "txt" }

/-- A round-trip-combined segment whose selected option carries a populated
coupon-code list. -/
def rtSeg : RawSegment :=
  { b := [{ FL := some [], lFC := some [], lstBagg := some [] }], lstFr := [rtOpt],
    I_RT := some (.jbool true) }

def rtRun : Except JsErr (ConvertResult × RawSegment) :=
  ConvertSegFinal rtSeg none "o" "d" "" "" 1 0 0 .jnull false 0

def rtPair : ConvertResult × RawSegment := rtRun.toOption.get!

/-! ### Inversion and shape lemmas for the stages -/

theorem ConvertSegFinal_ok {seg : RawSegment} {res : Option ResData}
    {org des frArmy frArmyRT : String} {NoAdt NoChd NoInf : Int} {FFare : JVal}
    {isRT : Bool} {fareId : Nat} {r : ConvertResult} {seg2 : RawSegment}
    (h : ConvertSegFinal seg res org des frArmy frArmyRT NoAdt NoChd NoInf FFare isRT fareId
          = .ok (r, seg2)) :
    ∃ out, convertCore seg res org des frArmy frArmyRT NoAdt NoChd NoInf FFare isRT fareId
      = .ok (out, seg2) ∧ r = .serialized out := by
  unfold ConvertSegFinal at h
  cases hc : convertCore seg res org des frArmy frArmyRT NoAdt NoChd NoInf FFare isRT fareId with
  | error e => rw [hc] at h; cases h
  | ok v =>
    obtain ⟨out, s⟩ := v
    rw [hc] at h
    simp only [Except.ok.injEq, Prod.mk.injEq] at h
    obtain ⟨h1, h2⟩ := h
    subst h2
    exact ⟨out, rfl, h1.symm⟩

theorem convertCore_ok {seg : RawSegment} {res : Option ResData}
    {org des frArmy frArmyRT : String} {NoAdt NoChd NoInf : Int} {FFare : JVal}
    {isRT : Bool} {fareId : Nat} {out : SegOut} {seg2 : RawSegment}
    (h : convertCore seg res org des frArmy frArmyRT NoAdt NoChd NoInf FFare isRT fareId
          = .ok (out, seg2)) :
    ∃ bnds idk isHnd out1 seg1 out2,
      processBounds seg res fareId seg.b "" false = .ok (bnds, idk, isHnd) ∧
      applyFare (applyLHB seg fareId) (baseOut seg org des bnds) frArmy frArmyRT fareId
        = .ok (out1, seg1) ∧
      applyPricing seg1 out1 NoAdt NoChd NoInf FFare = .ok (out2, seg2) ∧
      applyTail seg2 out2 org des isHnd isRT fareId = .ok out := by
  unfold convertCore at h
  cases hpb : processBounds seg res fareId seg.b "" false with
  | error e => rw [hpb] at h; cases h
  | ok v =>
    obtain ⟨bnds, idk, isHnd⟩ := v
    rw [hpb] at h
    dsimp only at h
    cases hf : applyFare (applyLHB seg fareId) (baseOut seg org des bnds) frArmy frArmyRT fareId with
    | error e => rw [hf] at h; cases h
    | ok v1 =>
      obtain ⟨out1, seg1⟩ := v1
      rw [hf] at h
      dsimp only at h
      cases hp : applyPricing seg1 out1 NoAdt NoChd NoInf FFare with
      | error e => rw [hp] at h; cases h
      | ok v2 =>
        obtain ⟨out2, s2⟩ := v2
        rw [hp] at h
        dsimp only at h
        cases ht : applyTail s2 out2 org des isHnd isRT fareId with
        | error e => rw [ht] at h; cases h
        | ok out3 =>
          rw [ht] at h
          simp only [Except.ok.injEq, Prod.mk.injEq] at h
          obtain ⟨h1, h2⟩ := h
          subst h2
          subst h1
          exact ⟨bnds, idk, isHnd, out1, seg1, out2, rfl, hf, hp, ht⟩

theorem applyLHB_shape (seg : RawSegment) (fareId : Nat) :
    applyLHB seg fareId = seg ∨
      ∃ v, applyLHB seg fareId = { seg with l_HB := v } := by
  unfold applyLHB
  by_cases hc : seg.b ≠ [] ∧ seg.lstFr ≠ []
  · rw [if_pos hc]
    cases hfr : seg.lstFr[fareId]? with
    | none => left; rfl
    | some fr => right; exact ⟨some (.jbool fr.IsHB), rfl⟩
  · rw [if_neg hc]; left; rfl

theorem applyLHB_lstFr (seg : RawSegment) (fareId : Nat) :
    (applyLHB seg fareId).lstFr = seg.lstFr := by
  rcases applyLHB_shape seg fareId with h | ⟨v, h⟩ <;> rw [h]

theorem applyLHB_I_RT (seg : RawSegment) (fareId : Nat) :
    (applyLHB seg fareId).I_RT = seg.I_RT := by
  rcases applyLHB_shape seg fareId with h | ⟨v, h⟩ <;> rw [h]

theorem applyLHB_Fr (seg : RawSegment) (fareId : Nat) :
    (applyLHB seg fareId).Fr = seg.Fr := by
  rcases applyLHB_shape seg fareId with h | ⟨v, h⟩ <;> rw [h]

theorem applyLHB_CC (seg : RawSegment) (fareId : Nat) :
    (applyLHB seg fareId).CC = seg.CC := by
  rcases applyLHB_shape seg fareId with h | ⟨v, h⟩ <;> rw [h]

theorem applyLHB_of_lstFr_nil {seg : RawSegment} {fareId : Nat}
    (h : seg.lstFr = []) : applyLHB seg fareId = seg := by
  unfold applyLHB
  rw [if_neg]
  intro hc
  exact hc.2 h

theorem applyFare_nil {seg : RawSegment} {out0 : SegOut} {frArmy frArmyRT : String}
    {fareId : Nat} (h : seg.lstFr = []) :
    applyFare seg out0 frArmy frArmyRT fareId = .ok ({ out0 with Fare := .jnull }, seg) := by
  unfold applyFare
  rw [if_pos h]

theorem applyFare_ok_of_ne_nil {seg : RawSegment} {out0 : SegOut}
    {frArmy frArmyRT : String} {fareId : Nat} {out1 : SegOut} {seg1 : RawSegment}
    (h : applyFare seg out0 frArmy frArmyRT fareId = .ok (out1, seg1))
    (hne : seg.lstFr ≠ []) :
    ∃ fr p0, seg.lstFr[fareId]? = some fr ∧ fr.L_PF.head? = some p0 ∧
      out1 = applyFareOut seg { out0 with Fare := .jnull } fr p0 fareId ∧
      seg1 = { seg with Fr := some fr } := by
  unfold applyFare at h
  rw [if_neg hne] at h
  cases hfr : seg.lstFr[fareId]? with
  | none => rw [hfr] at h; cases h
  | some fr =>
    rw [hfr] at h
    dsimp only at h
    cases hp0 : fr.L_PF.head? with
    | none => rw [hp0] at h; cases h
    | some p0 =>
      rw [hp0] at h
      simp only [Except.ok.injEq, Prod.mk.injEq] at h
      exact ⟨fr, p0, rfl, hp0, h.1.symm, h.2.symm⟩

theorem applyPricing_ok_some {seg1 : RawSegment} {out : SegOut}
    {NoAdt NoChd NoInf : Int} {FFare : JVal} {out2 : SegOut} {seg2 : RawSegment}
    {fr : FareOption}
    (h : applyPricing seg1 out NoAdt NoChd NoInf FFare = .ok (out2, seg2))
    (hfr : seg1.Fr = some fr) :
    ∃ b0, out.bonds.head? = some b0 ∧
      out2 = applyPricingSelOut seg1 out fr b0 NoAdt NoChd NoInf FFare ∧
      seg2 = applyPricingSelSeg seg1 fr NoAdt NoChd NoInf := by
  unfold applyPricing at h
  rw [hfr] at h
  dsimp only at h
  cases hb : out.bonds.head? with
  | none => rw [hb] at h; cases h
  | some b0 =>
    rw [hb] at h
    simp only [Except.ok.injEq, Prod.mk.injEq] at h
    exact ⟨b0, rfl, h.1.symm, h.2.symm⟩

theorem applyPricing_ok_none {seg1 : RawSegment} {out : SegOut}
    {NoAdt NoChd NoInf : Int} {FFare : JVal} {out2 : SegOut} {seg2 : RawSegment}
    (h : applyPricing seg1 out NoAdt NoChd NoInf FFare = .ok (out2, seg2))
    (hfr : seg1.Fr = none) :
    ∃ b0, out.bonds.head? = some b0 ∧
      out2 = applyPricingFlatOut seg1 out b0 ∧ seg2 = seg1 := by
  unfold applyPricing at h
  rw [hfr] at h
  dsimp only at h
  cases hb : out.bonds.head? with
  | none => rw [hb] at h; cases h
  | some b0 =>
    rw [hb] at h
    simp only [Except.ok.injEq, Prod.mk.injEq] at h
    exact ⟨b0, rfl, h.1.symm, h.2.symm⟩

theorem applyTail_ok {seg2 : RawSegment} {out : SegOut} {org des : String}
    {isHnd isRT : Bool} {fareId : Nat} {out3 : SegOut}
    (h : applyTail seg2 out org des isHnd isRT fareId = .ok out3) :
    ∃ cc, tailCouponCode seg2 fareId = .ok cc ∧
      out3 = applyTailOut seg2 out org des isHnd isRT cc := by
  unfold applyTail at h
  cases hc : tailCouponCode seg2 fareId with
  | error e => rw [hc] at h; cases h
  | ok cc =>
    rw [hc] at h
    simp only [Except.ok.injEq] at h
    exact ⟨cc, rfl, h.symm⟩

/-! ### Aggregation lemmas (lines 343-442) -/

/-- The per-type base-fare sum the specification describes: over exactly the
rows whose passenger-type label case-insensitively equals `label`, the row's
base fare times the passenger count. -/
def typeBaseSum (rows : List PaxFare) (label : String) (count : Int) : Int :=
  ((rows.filter (fun r => (strToUpper r.PT) == label)).map (fun r => r.BF * count)).sum

/-- The passenger count a row is weighted by: the adult, child or infant
count according to its case-insensitive label, zero for any other label. -/
def bucketCount (NoAdt NoChd NoInf : Int) (r : PaxFare) : Int :=
  if (strToUpper r.PT) = "ADULT" then NoAdt
  else if (strToUpper r.PT) = "CHILD" then NoChd
  else if (strToUpper r.PT) = "INFANT" then NoInf
  else 0

/-- The count-weighted sum of an optional per-row field, with an absent field
contributing zero. -/
def optTotalSum (rows : List PaxFare) (f : PaxFare → Option Int)
    (NoAdt NoChd NoInf : Int) : Int :=
  (rows.map (fun r => bucketCount NoAdt NoChd NoInf r * (f r).getD 0)).sum

theorem addOpt_eq (o : Option Int) (n acc : Int) : addOpt o n acc = acc + o.getD 0 * n := by
  cases o <;> simp [addOpt]

theorem paxStep_adult (NoAdt NoChd NoInf : Int) (z : PaxAgg) (r : PaxFare) :
    (paxStep NoAdt NoChd NoInf z r).adult =
      if (strToUpper r.PT) = "ADULT" then z.adult + r.BF * NoAdt else z.adult := by
  unfold paxStep
  by_cases h1 : (strToUpper r.PT) = "ADULT" <;> by_cases h2 : (strToUpper r.PT) = "CHILD" <;>
    by_cases h3 : (strToUpper r.PT) = "INFANT" <;> simp [h1, h2, h3]

theorem paxStep_child (NoAdt NoChd NoInf : Int) (z : PaxAgg) (r : PaxFare) :
    (paxStep NoAdt NoChd NoInf z r).child =
      if (strToUpper r.PT) = "CHILD" then z.child + r.BF * NoChd else z.child := by
  unfold paxStep
  by_cases h1 : (strToUpper r.PT) = "ADULT" <;> by_cases h2 : (strToUpper r.PT) = "CHILD" <;>
    by_cases h3 : (strToUpper r.PT) = "INFANT" <;> simp [h1, h2, h3]

theorem paxStep_infant (NoAdt NoChd NoInf : Int) (z : PaxAgg) (r : PaxFare) :
    (paxStep NoAdt NoChd NoInf z r).infant =
      if (strToUpper r.PT) = "INFANT" then z.infant + r.BF * NoInf else z.infant := by
  unfold paxStep
  by_cases h1 : (strToUpper r.PT) = "ADULT" <;> by_cases h2 : (strToUpper r.PT) = "CHILD" <;>
    by_cases h3 : (strToUpper r.PT) = "INFANT" <;> simp [h1, h2, h3]

theorem paxStep_commission (NoAdt NoChd NoInf : Int) (z : PaxAgg) (r : PaxFare) :
    (paxStep NoAdt NoChd NoInf z r).commission =
      z.commission + bucketCount NoAdt NoChd NoInf r * (r.COM).getD 0 := by
  unfold paxStep bucketCount
  by_cases h1 : (strToUpper r.PT) = "ADULT" <;> by_cases h2 : (strToUpper r.PT) = "CHILD" <;>
    by_cases h3 : (strToUpper r.PT) = "INFANT" <;> simp [h1, h2, h3, addOpt_eq] <;> ring

theorem paxStep_cashBack (NoAdt NoChd NoInf : Int) (z : PaxAgg) (r : PaxFare) :
    (paxStep NoAdt NoChd NoInf z r).cashBack =
      z.cashBack + bucketCount NoAdt NoChd NoInf r * (r.CB).getD 0 := by
  unfold paxStep bucketCount
  by_cases h1 : (strToUpper r.PT) = "ADULT" <;> by_cases h2 : (strToUpper r.PT) = "CHILD" <;>
    by_cases h3 : (strToUpper r.PT) = "INFANT" <;> simp [h1, h2, h3, addOpt_eq] <;> ring

theorem paxStep_tds (NoAdt NoChd NoInf : Int) (z : PaxAgg) (r : PaxFare) :
    (paxStep NoAdt NoChd NoInf z r).tds =
      z.tds + bucketCount NoAdt NoChd NoInf r * (r.TDS).getD 0 := by
  unfold paxStep bucketCount
  by_cases h1 : (strToUpper r.PT) = "ADULT" <;> by_cases h2 : (strToUpper r.PT) = "CHILD" <;>
    by_cases h3 : (strToUpper r.PT) = "INFANT" <;> simp [h1, h2, h3, addOpt_eq] <;> ring

theorem paxStep_serviceFee (NoAdt NoChd NoInf : Int) (z : PaxAgg) (r : PaxFare) :
    (paxStep NoAdt NoChd NoInf z r).serviceFee =
      z.serviceFee + bucketCount NoAdt NoChd NoInf r * (r.SF).getD 0 := by
  unfold paxStep bucketCount
  by_cases h1 : (strToUpper r.PT) = "ADULT" <;> by_cases h2 : (strToUpper r.PT) = "CHILD" <;>
    by_cases h3 : (strToUpper r.PT) = "INFANT" <;> simp [h1, h2, h3, addOpt_eq] <;> ring

theorem paxStep_transactionFees (NoAdt NoChd NoInf : Int) (z : PaxAgg) (r : PaxFare) :
    (paxStep NoAdt NoChd NoInf z r).transactionFees =
      z.transactionFees + bucketCount NoAdt NoChd NoInf r * (r.TA).getD 0 := by
  unfold paxStep bucketCount
  by_cases h1 : (strToUpper r.PT) = "ADULT" <;> by_cases h2 : (strToUpper r.PT) = "CHILD" <;>
    by_cases h3 : (strToUpper r.PT) = "INFANT" <;> simp [h1, h2, h3, addOpt_eq] <;> ring

theorem paxFold_adult (NoAdt NoChd NoInf : Int) (rows : List PaxFare) (z : PaxAgg) :
    (rows.foldl (paxStep NoAdt NoChd NoInf) z).adult =
      z.adult + typeBaseSum rows "ADULT" NoAdt := by
  induction rows generalizing z with
  | nil => simp [typeBaseSum]
  | cons r rs ih =>
    rw [List.foldl_cons, ih, paxStep_adult]
    by_cases h1 : (strToUpper r.PT) = "ADULT" <;>
      simp [typeBaseSum, List.filter_cons, h1] <;> ring

theorem paxFold_child (NoAdt NoChd NoInf : Int) (rows : List PaxFare) (z : PaxAgg) :
    (rows.foldl (paxStep NoAdt NoChd NoInf) z).child =
      z.child + typeBaseSum rows "CHILD" NoChd := by
  induction rows generalizing z with
  | nil => simp [typeBaseSum]
  | cons r rs ih =>
    rw [List.foldl_cons, ih, paxStep_child]
    by_cases h1 : (strToUpper r.PT) = "CHILD" <;>
      simp [typeBaseSum, List.filter_cons, h1] <;> ring

theorem paxFold_infant (NoAdt NoChd NoInf : Int) (rows : List PaxFare) (z : PaxAgg) :
    (rows.foldl (paxStep NoAdt NoChd NoInf) z).infant =
      z.infant + typeBaseSum rows "INFANT" NoInf := by
  induction rows generalizing z with
  | nil => simp [typeBaseSum]
  | cons r rs ih =>
    rw [List.foldl_cons, ih, paxStep_infant]
    by_cases h1 : (strToUpper r.PT) = "INFANT" <;>
      simp [typeBaseSum, List.filter_cons, h1] <;> ring

theorem paxFold_commission (NoAdt NoChd NoInf : Int) (rows : List PaxFare) (z : PaxAgg) :
    (rows.foldl (paxStep NoAdt NoChd NoInf) z).commission =
      z.commission + optTotalSum rows (fun r => r.COM) NoAdt NoChd NoInf := by
  induction rows generalizing z with
  | nil => simp [optTotalSum]
  | cons r rs ih =>
    rw [List.foldl_cons, ih, paxStep_commission]
    simp [optTotalSum]
    ring

theorem paxFold_cashBack (NoAdt NoChd NoInf : Int) (rows : List PaxFare) (z : PaxAgg) :
    (rows.foldl (paxStep NoAdt NoChd NoInf) z).cashBack =
      z.cashBack + optTotalSum rows (fun r => r.CB) NoAdt NoChd NoInf := by
  induction rows generalizing z with
  | nil => simp [optTotalSum]
  | cons r rs ih =>
    rw [List.foldl_cons, ih, paxStep_cashBack]
    simp [optTotalSum]
    ring

theorem paxFold_tds (NoAdt NoChd NoInf : Int) (rows : List PaxFare) (z : PaxAgg) :
    (rows.foldl (paxStep NoAdt NoChd NoInf) z).tds =
      z.tds + optTotalSum rows (fun r => r.TDS) NoAdt NoChd NoInf := by
  induction rows generalizing z with
  | nil => simp [optTotalSum]
  | cons r rs ih =>
    rw [List.foldl_cons, ih, paxStep_tds]
    simp [optTotalSum]
    ring

theorem paxFold_serviceFee (NoAdt NoChd NoInf : Int) (rows : List PaxFare) (z : PaxAgg) :
    (rows.foldl (paxStep NoAdt NoChd NoInf) z).serviceFee =
      z.serviceFee + optTotalSum rows (fun r => r.SF) NoAdt NoChd NoInf := by
  induction rows generalizing z with
  | nil => simp [optTotalSum]
  | cons r rs ih =>
    rw [List.foldl_cons, ih, paxStep_serviceFee]
    simp [optTotalSum]
    ring

theorem paxFold_transactionFees (NoAdt NoChd NoInf : Int) (rows : List PaxFare) (z : PaxAgg) :
    (rows.foldl (paxStep NoAdt NoChd NoInf) z).transactionFees =
      z.transactionFees + optTotalSum rows (fun r => r.TA) NoAdt NoChd NoInf := by
  induction rows generalizing z with
  | nil => simp [optTotalSum]
  | cons r rs ih =>
    rw [List.foldl_cons, ih, paxStep_transactionFees]
    simp [optTotalSum]
    ring

theorem aggregatePax_adult (rows : List PaxFare) (NoAdt NoChd NoInf : Int) :
    (aggregatePax rows NoAdt NoChd NoInf).adult = typeBaseSum rows "ADULT" NoAdt := by
  unfold aggregatePax
  rw [paxFold_adult]
  simp

theorem aggregatePax_child (rows : List PaxFare) (NoAdt NoChd NoInf : Int) :
    (aggregatePax rows NoAdt NoChd NoInf).child = typeBaseSum rows "CHILD" NoChd := by
  unfold aggregatePax
  rw [paxFold_child]
  simp

theorem aggregatePax_infant (rows : List PaxFare) (NoAdt NoChd NoInf : Int) :
    (aggregatePax rows NoAdt NoChd NoInf).infant = typeBaseSum rows "INFANT" NoInf := by
  unfold aggregatePax
  rw [paxFold_infant]
  simp

theorem aggregatePax_commission (rows : List PaxFare) (NoAdt NoChd NoInf : Int) :
    (aggregatePax rows NoAdt NoChd NoInf).commission =
      optTotalSum rows (fun r => r.COM) NoAdt NoChd NoInf := by
  unfold aggregatePax
  rw [paxFold_commission]
  simp

theorem aggregatePax_cashBack (rows : List PaxFare) (NoAdt NoChd NoInf : Int) :
    (aggregatePax rows NoAdt NoChd NoInf).cashBack =
      optTotalSum rows (fun r => r.CB) NoAdt NoChd NoInf := by
  unfold aggregatePax
  rw [paxFold_cashBack]
  simp

theorem aggregatePax_tds (rows : List PaxFare) (NoAdt NoChd NoInf : Int) :
    (aggregatePax rows NoAdt NoChd NoInf).tds =
      optTotalSum rows (fun r => r.TDS) NoAdt NoChd NoInf := by
  unfold aggregatePax
  rw [paxFold_tds]
  simp

theorem aggregatePax_serviceFee (rows : List PaxFare) (NoAdt NoChd NoInf : Int) :
    (aggregatePax rows NoAdt NoChd NoInf).serviceFee =
      optTotalSum rows (fun r => r.SF) NoAdt NoChd NoInf := by
  unfold aggregatePax
  rw [paxFold_serviceFee]
  simp

theorem aggregatePax_transactionFees (rows : List PaxFare) (NoAdt NoChd NoInf : Int) :
    (aggregatePax rows NoAdt NoChd NoInf).transactionFees =
      optTotalSum rows (fun r => r.TA) NoAdt NoChd NoInf := by
  unfold aggregatePax
  rw [paxFold_transactionFees]
  simp

/-! ### Frame and projection helpers -/

theorem applyTailOut_CouponCode (seg2 : RawSegment) (out : SegOut) (org des : String)
    (isHnd isRT : Bool) (cc : JVal) :
    (applyTailOut seg2 out org des isHnd isRT cc).CouponCode = cc := by
  simp [applyTailOut]

theorem applyTailOut_DiscountAmount (seg2 : RawSegment) (out : SegOut) (org des : String)
    (isHnd isRT : Bool) (cc : JVal) :
    (applyTailOut seg2 out org des isHnd isRT cc).DiscountAmount =
      (if jsLooseEqEmptyStr cc then JVal.jnum 0 else out.DiscountAmount) := by
  simp [applyTailOut]

theorem applyTailOut_CCL (seg2 : RawSegment) (out : SegOut) (org des : String)
    (isHnd isRT : Bool) (cc : JVal) :
    (applyTailOut seg2 out org des isHnd isRT cc).CCL = out.CCL := by
  simp [applyTailOut]

theorem applyTailOut_IACL (seg2 : RawSegment) (out : SegOut) (org des : String)
    (isHnd isRT : Bool) (cc : JVal) :
    (applyTailOut seg2 out org des isHnd isRT cc).IACL = out.IACL := by
  simp [applyTailOut]

theorem applyTailOut_CpnTxtS (seg2 : RawSegment) (out : SegOut) (org des : String)
    (isHnd isRT : Bool) (cc : JVal) :
    (applyTailOut seg2 out org des isHnd isRT cc).CpnTxtS = out.CpnTxtS := by
  simp [applyTailOut]

theorem applyTailOut_CpnLstDis (seg2 : RawSegment) (out : SegOut) (org des : String)
    (isHnd isRT : Bool) (cc : JVal) :
    (applyTailOut seg2 out org des isHnd isRT cc).CpnLstDis = out.CpnLstDis := by
  simp [applyTailOut]

theorem applyTailOut_Fare (seg2 : RawSegment) (out : SegOut) (org des : String)
    (isHnd isRT : Bool) (cc : JVal) :
    (applyTailOut seg2 out org des isHnd isRT cc).Fare = out.Fare := by
  simp [applyTailOut]

theorem applyTailOut_AdultPrice (seg2 : RawSegment) (out : SegOut) (org des : String)
    (isHnd isRT : Bool) (cc : JVal) :
    (applyTailOut seg2 out org des isHnd isRT cc).AdultPrice = out.AdultPrice := by
  simp [applyTailOut]

theorem applyTailOut_ChildPrice (seg2 : RawSegment) (out : SegOut) (org des : String)
    (isHnd isRT : Bool) (cc : JVal) :
    (applyTailOut seg2 out org des isHnd isRT cc).ChildPrice = out.ChildPrice := by
  simp [applyTailOut]

theorem applyTailOut_InfantPrice (seg2 : RawSegment) (out : SegOut) (org des : String)
    (isHnd isRT : Bool) (cc : JVal) :
    (applyTailOut seg2 out org des isHnd isRT cc).InfantPrice = out.InfantPrice := by
  simp [applyTailOut]

theorem applyTailOut_TotalTax (seg2 : RawSegment) (out : SegOut) (org des : String)
    (isHnd isRT : Bool) (cc : JVal) :
    (applyTailOut seg2 out org des isHnd isRT cc).TotalTax = out.TotalTax := by
  simp [applyTailOut]

theorem applyTailOut_TotalFare (seg2 : RawSegment) (out : SegOut) (org des : String)
    (isHnd isRT : Bool) (cc : JVal) :
    (applyTailOut seg2 out org des isHnd isRT cc).TotalFare = out.TotalFare := by
  simp [applyTailOut]

theorem applyTailOut_ttlDiscount (seg2 : RawSegment) (out : SegOut) (org des : String)
    (isHnd isRT : Bool) (cc : JVal) :
    (applyTailOut seg2 out org des isHnd isRT cc).ttlDiscount = out.ttlDiscount := by
  simp [applyTailOut]

theorem applyTailOut_CBAMT (seg2 : RawSegment) (out : SegOut) (org des : String)
    (isHnd isRT : Bool) (cc : JVal) :
    (applyTailOut seg2 out org des isHnd isRT cc).CBAMT =
      (match seg2.CBAMT with | some v => some v | none => out.CBAMT) := by
  simp [applyTailOut]

theorem applyTailOut_Comm (seg2 : RawSegment) (out : SegOut) (org des : String)
    (isHnd isRT : Bool) (cc : JVal) :
    (applyTailOut seg2 out org des isHnd isRT cc).Comm =
      (match seg2.Comm with | some v => some v | none => out.Comm) := by
  simp [applyTailOut]

theorem applyTailOut_TDS (seg2 : RawSegment) (out : SegOut) (org des : String)
    (isHnd isRT : Bool) (cc : JVal) :
    (applyTailOut seg2 out org des isHnd isRT cc).TDS =
      (match seg2.TDS with | some v => some v | none => out.TDS) := by
  simp [applyTailOut]

theorem applyTailOut_SF (seg2 : RawSegment) (out : SegOut) (org des : String)
    (isHnd isRT : Bool) (cc : JVal) :
    (applyTailOut seg2 out org des isHnd isRT cc).SF =
      (match seg2.SF with | some v => some v | none => out.SF) := by
  simp [applyTailOut]

theorem applyTailOut_bonds (seg2 : RawSegment) (out : SegOut) (org des : String)
    (isHnd isRT : Bool) (cc : JVal) :
    (applyTailOut seg2 out org des isHnd isRT cc).bonds = out.bonds := by
  simp [applyTailOut]

/-- On every completed run the final segment differs from the input segment
at most in the six properties the source writes back (`Fr`, `l_HB`, `CBAMT`,
`Comm`, `TDS`, `SF`). -/
theorem convertCore_frame {seg : RawSegment} {res : Option ResData}
    {org des frArmy frArmyRT : String} {NoAdt NoChd NoInf : Int} {FFare : JVal}
    {isRT : Bool} {fareId : Nat} {out : SegOut} {seg2 : RawSegment}
    (h : convertCore seg res org des frArmy frArmyRT NoAdt NoChd NoInf FFare isRT fareId
          = .ok (out, seg2)) :
    seg2 = { seg with
             Fr := seg2.Fr
             l_HB := seg2.l_HB
             CBAMT := seg2.CBAMT
             Comm := seg2.Comm
             TDS := seg2.TDS
             SF := seg2.SF } := by
  obtain ⟨bnds, idk, isHnd, out1, seg1, out2, hpb, hf, hp, ht⟩ := convertCore_ok h
  have hseg1 : seg1 = applyLHB seg fareId ∨
      ∃ fr, seg1 = { applyLHB seg fareId with Fr := some fr } := by
    by_cases hn : (applyLHB seg fareId).lstFr = []
    · rw [applyFare_nil hn] at hf
      simp only [Except.ok.injEq, Prod.mk.injEq] at hf
      exact Or.inl hf.2.symm
    · obtain ⟨fr, p0, -, -, -, hs⟩ := applyFare_ok_of_ne_nil hf hn
      exact Or.inr ⟨fr, hs⟩
  have hseg2 : seg2 = seg1 ∨
      ∃ fr, seg2 = applyPricingSelSeg seg1 fr NoAdt NoChd NoInf := by
    cases hfr2 : seg1.Fr with
    | none =>
      obtain ⟨b0, -, -, hs⟩ := applyPricing_ok_none hp hfr2
      exact Or.inl hs
    | some fr =>
      obtain ⟨b0, -, -, hs⟩ := applyPricing_ok_some hp hfr2
      exact Or.inr ⟨fr, hs⟩
  rcases applyLHB_shape seg fareId with h0 | ⟨v, h0⟩ <;>
    rcases hseg1 with h1 | ⟨fr1, h1⟩ <;>
      rcases hseg2 with h2 | ⟨fr2, h2⟩ <;>
        subst h2 <;> rw [h0] at h1 <;> subst h1 <;> rfl

/-! ### Leg-level helpers -/

theorem legRecord_HBU (seg : RawSegment) (res : Option ResData) (bnd : RawBound)
    (lc : Nat) (fleg : FlightLeg) (cnOG cnDT : Option String) (lfc : List String)
    (pv : JVal × Option String × Option String × Option String) :
    (legRecord seg res bnd lc fleg cnOG cnDT lfc pv).HBU =
      (legHandBaggage bnd fleg lc).1 := rfl

theorem legRecord_HBW (seg : RawSegment) (res : Option ResData) (bnd : RawBound)
    (lc : Nat) (fleg : FlightLeg) (cnOG cnDT : Option String) (lfc : List String)
    (pv : JVal × Option String × Option String × Option String) :
    (legRecord seg res bnd lc fleg cnOG cnDT lfc pv).HBW =
      (legHandBaggage bnd fleg lc).2 := rfl

theorem legRecord_BaggageUnit (seg : RawSegment) (res : Option ResData) (bnd : RawBound)
    (lc : Nat) (fleg : FlightLeg) (cnOG cnDT : Option String) (lfc : List String)
    (pv : JVal × Option String × Option String × Option String) :
    (legRecord seg res bnd lc fleg cnOG cnDT lfc pv).BaggageUnit = pv.2.1 := rfl

theorem legRecord_BaggageWeight (seg : RawSegment) (res : Option ResData) (bnd : RawBound)
    (lc : Nat) (fleg : FlightLeg) (cnOG cnDT : Option String) (lfc : List String)
    (pv : JVal × Option String × Option String × Option String) :
    (legRecord seg res bnd lc fleg cnOG cnDT lfc pv).BaggageWeight = pv.2.2.1 := rfl

theorem legHandBaggage_native {bnd : RawBound} {fleg : FlightLeg} {lc : Nat}
    (h : ∀ l, bnd.lstHBagg = some l → l.length ≤ lc) :
    legHandBaggage bnd fleg lc = (.jstr fleg.HBU, .jnum fleg.HBW) := by
  unfold legHandBaggage
  cases hl : bnd.lstHBagg with
  | none => rfl
  | some l =>
    dsimp only
    rw [List.getElem?_eq_none (h l hl)]

theorem buildLeg_ok_elim {seg : RawSegment} {res : Option ResData} {bnd : RawBound}
    {fareId lc : Nat} {key : String} {pr : LegOut × Option String} {fleg : FlightLeg}
    (hok : buildLeg seg res bnd fareId lc key = .ok pr)
    (hfleg : GetFltDtl res key = some fleg) :
    ∃ cnOG cnDT lfc lstBagg pv,
      bnd.lFC = some lfc ∧ bnd.lstBagg = some lstBagg ∧
      legProviderCode seg bnd fleg fareId lc
        (legCheckedBaggage lstBagg lc).1 (legCheckedBaggage lstBagg lc).2 = .ok pv ∧
      pr = (legRecord seg res bnd lc fleg cnOG cnDT lfc pv, pv.2.2.2) := by
  unfold buildLeg at hok
  rw [hfleg] at hok
  dsimp only at hok
  cases h1 : CountryName res fleg.OG with
  | error e => rw [h1] at hok; cases hok
  | ok cnOG =>
    rw [h1] at hok
    dsimp only at hok
    cases h2 : CountryName res fleg.DT with
    | error e => rw [h2] at hok; cases hok
    | ok cnDT =>
      rw [h2] at hok
      dsimp only at hok
      cases h3 : bnd.lFC with
      | none => rw [h3] at hok; cases hok
      | some lfc =>
        rw [h3] at hok
        dsimp only at hok
        cases h4 : bnd.lstBagg with
        | none => rw [h4] at hok; cases hok
        | some lstBagg =>
          rw [h4] at hok
          dsimp only at hok
          cases h5 : legProviderCode seg bnd fleg fareId lc
              (legCheckedBaggage lstBagg lc).1 (legCheckedBaggage lstBagg lc).2 with
          | error e => rw [h5] at hok; cases hok
          | ok pv =>
            rw [h5] at hok
            simp only [Except.ok.injEq] at hok
            exact ⟨cnOG, cnDT, lfc, lstBagg, pv, rfl, rfl, h5, hok.symm⟩

/-! ### Claim C1 -/

/-- Claim C1 (counterexample): the claim says that for a leg with a parseable
`DD-MMM-YYYY` departure date, engine id 1 and no higher-precedence baggage
data, the legacy policy table forces the output hand baggage to (KG, 7).  On
`legacySeg` (engine id 1, departure 15 Sep 2020, no per-fare map, no per-leg
hand-baggage list) the legacy block does compute ("KG", 7), yet the output
leg keeps its native hand baggage (LB, 10), because lines 171-172 overwrite
the block's writes. -/
theorem C1_counterexample :
    legacySeg.EID = 1 ∧
    legacyHandBaggage legacySeg.EID legacyFleg.DDT = some ("KG", 7) ∧
    legacyBnd.lstHBagg = none ∧ legacyBnd.dctBKKY = none ∧
    (runFirstLeg legacyRun).map (fun l => (l.HBU, l.HBW)) =
      some (.jstr "LB", .jnum 10) ∧
    ¬ (runFirstLeg legacyRun).map (fun l => (l.HBU, l.HBW)) =
        some (.jstr "KG", .jnum 7) :=
  ⟨rfl, rfl, rfl, rfl, rfl, by decide⟩

/-- Claim C1 (amended): the legacy engine-id/date table of lines 133-170 is
dead policy — its writes are unconditionally overwritten by the leg's native
hand-baggage fields (lines 171-172) — so whenever the per-leg hand-baggage
list does not cover the leg, the output hand-baggage unit and weight equal
the leg's native `HBU`/`HBW`, for every engine id and departure date. -/
theorem C1_amended_legacy_dead (seg : RawSegment) (res : Option ResData)
    (bnd : RawBound) (fareId lc : Nat) (key : String) (fleg : FlightLeg)
    (pr : LegOut × Option String)
    (hfleg : GetFltDtl res key = some fleg)
    (hHB : ∀ l, bnd.lstHBagg = some l → l.length ≤ lc)
    (hok : buildLeg seg res bnd fareId lc key = .ok pr) :
    pr.1.HBU = .jstr fleg.HBU ∧ pr.1.HBW = .jnum fleg.HBW := by
  obtain ⟨cnOG, cnDT, lfc, lstBagg, pv, -, -, -, hpr⟩ := buildLeg_ok_elim hok hfleg
  rw [hpr]
  rw [legRecord_HBU, legRecord_HBW, legHandBaggage_native hHB]
  exact ⟨rfl, rfl⟩

theorem C1_amended_witness :
    legacyLegPair.1.HBU = .jstr legacyFleg.HBU ∧
    legacyLegPair.1.HBW = .jnum legacyFleg.HBW :=
  C1_amended_legacy_dead legacySeg (some legacyRes) legacyBnd 0 0 "K" legacyFleg
    legacyLegPair rfl (fun l hl => by cases hl) rfl

/-! ### Claim C2 -/

/-- Claim C2 (counterexample): with all three baggage tiers populated
(`pfBnd` carries the per-fare map `PC|2`, the per-leg list `XX|9`, and
legacy-eligible engine/date data), the resolved checked baggage does come
from the per-fare-index string, but the resolved hand baggage stays at the
leg's native (KG, 10) instead of coming from the per-fare-index string as
the claim asserts. -/
theorem C2_counterexample :
    pfBnd.dctBKKY = some [("fs1", ["BK0"])] ∧
    pfBnd.lstBagg = some ["XX|9"] ∧
    pfSeg.EID = 0 ∧
    (runFirstLeg pfRun).map
        (fun l => (l.BaggageUnit, l.BaggageWeight, l.HBU, l.HBW)) =
      some (some "PC", some "2", .jstr "KG", .jnum 10) ∧
    ¬ (runFirstLeg pfRun).map (fun l => (l.HBU, l.HBW)) =
        some (.jstr "PC", .jstr "2") :=
  ⟨rfl, rfl, rfl, rfl, by decide⟩

/-- Claim C2 (amended): when the per-fare-index booking-key map is present,
addressable by the selected fare index, and the leg position is within the
keyed list, the resolved *checked* baggage unit/weight come from the
per-fare-index delimited `unit|weight` string; the *hand* baggage is
unaffected by that map and (with no per-leg hand-baggage list) equals the
leg's native fields. -/
theorem C2_amended_perfare_checked_only (seg : RawSegment) (res : Option ResData)
    (bnd : RawBound) (fareId lc : Nat) (key : String) (fleg : FlightLeg)
    (fr : FareOption) (m : List (String × List String)) (bkl : List String)
    (dB : List (String × List String)) (dBl : List String) (entry : String)
    (pr : LegOut × Option String)
    (hfleg : GetFltDtl res key = some fleg)
    (hm : bnd.dctBKKY = some m) (hlen : fareId < m.length)
    (hfr : seg.lstFr[fareId]? = some fr)
    (hbkl : assocLookup m fr.fs = some bkl) (hlc : lc < bkl.length)
    (hdB : bnd.dctBagg = some dB) (hdBl : assocLookup dB fr.fs = some dBl)
    (hentry : dBl[lc]? = some entry)
    (hHB : bnd.lstHBagg = none)
    (hok : buildLeg seg res bnd fareId lc key = .ok pr) :
    pr.1.BaggageUnit = (jsSplit entry '|')[0]? ∧
    pr.1.BaggageWeight = (jsSplit entry '|')[1]? ∧
    pr.1.HBU = .jstr fleg.HBU ∧ pr.1.HBW = .jnum fleg.HBW := by
  obtain ⟨cnOG, cnDT, lfc, lstBagg, pv, -, -, hpv, hpr⟩ := buildLeg_ok_elim hok hfleg
  unfold legProviderCode at hpv
  rw [hm] at hpv
  dsimp only at hpv
  rw [if_pos hlen] at hpv
  rw [hfr] at hpv
  dsimp only at hpv
  rw [hbkl] at hpv
  dsimp only at hpv
  rw [if_pos hlc, hdB] at hpv
  dsimp only at hpv
  rw [hdBl] at hpv
  dsimp only at hpv
  rw [hentry] at hpv
  simp only [Except.ok.injEq] at hpv
  have hnative : legHandBaggage bnd fleg lc = (.jstr fleg.HBU, .jnum fleg.HBW) :=
    legHandBaggage_native (fun l hl => by rw [hHB] at hl; cases hl)
  rw [hpr, legRecord_BaggageUnit, legRecord_BaggageWeight, legRecord_HBU,
      legRecord_HBW, ← hpv, hnative]
  exact ⟨rfl, rfl, rfl, rfl⟩

theorem C2_amended_witness :
    pfLegPair.1.BaggageUnit = some "PC" ∧
    pfLegPair.1.BaggageWeight = some "2" ∧
    pfLegPair.1.HBU = .jstr pfFleg.HBU ∧ pfLegPair.1.HBW = .jnum pfFleg.HBW :=
  C2_amended_perfare_checked_only pfSeg (some pfRes) pfBnd 0 0 "K" pfFleg pfOpt
    [("fs1", ["BK0"])] ["BK0"] [("fs1", ["PC|2"])] ["PC|2"] "PC|2" pfLegPair
    rfl rfl (by decide) rfl rfl (by decide) rfl rfl rfl rfl rfl

/-! ### Claim C5 -/

/-- Claim C5 (counterexample): the claim says a segment structurally lacking
the out-of-policy field yields an *unserialized partial* record.  In JS,
reading a missing property of a non-null object does not throw; on `flatSeg`
(which has no `IsFlightOutOfPolicy`) the run completes on the serialising
success path. -/
theorem C5_counterexample :
    flatSeg.IsFlightOutOfPolicy = none ∧
    runIsSerialized (ConvertSegFinal flatSeg none "o" "d" "" "" 0 0 0 .jnull false 0) = true :=
  ⟨rfl, rfl⟩

/-- Claim C5 (amended): dereferencing the out-of-policy field cannot throw
(an absent property of a non-null object reads as `undefined`), so the
fail-soft partial-record return is unreachable: every completed run hands the
caller the serialised record. -/
theorem C5_amended_always_serialized (seg : RawSegment) (res : Option ResData)
    (org des frArmy frArmyRT : String) (NoAdt NoChd NoInf : Int) (FFare : JVal)
    (isRT : Bool) (fareId : Nat) (r : ConvertResult) (seg2 : RawSegment)
    (h : ConvertSegFinal seg res org des frArmy frArmyRT NoAdt NoChd NoInf FFare isRT fareId
          = .ok (r, seg2)) :
    r.isSerialized = true := by
  obtain ⟨out, -, hr⟩ := ConvertSegFinal_ok h
  rw [hr]
  rfl

theorem C5_amended_witness : flatPair.1.isSerialized = true :=
  C5_amended_always_serialized flatSeg none "o" "d" "" "" 0 0 0 .jnull false 0
    flatPair.1 flatPair.2 rfl

/-! ### Claim C6 -/

/-- Claim C6 (counterexample): the claim says the transform never throws and
that a leg key missing from the flight-detail dictionary merely yields an
undefined leg.  On `missSeg` (one bound, one leg key, empty dictionary) the
leg-extraction stage dereferences the undefined leg (line 126, `fleg.AC`)
and the `TypeError` propagates to the caller. -/
theorem C6_counterexample :
    GetFltDtl (some missRes) "K1" = none ∧
    ConvertSegFinal missSeg (some missRes) "o" "d" "" "" 0 0 0 .jnull false 0
      = .error .typeError :=
  ⟨rfl, rfl⟩

/-- Claim C6 (amended): a leg key that resolves to no flight-detail entry
makes the leg-extraction stage throw a `TypeError` that propagates to the
caller; the transform has no no-throw contract. -/
theorem C6_amended_missing_leg_throws (seg : RawSegment) (res : Option ResData)
    (org des frArmy frArmyRT : String) (NoAdt NoChd NoInf : Int) (FFare : JVal)
    (isRT : Bool) (fareId : Nat) (bnd : RawBound) (rest : List RawBound)
    (k : String) (ks : List String)
    (hb : seg.b = bnd :: rest) (hfl : bnd.FL = some (k :: ks))
    (hmiss : GetFltDtl res k = none) :
    ConvertSegFinal seg res org des frArmy frArmyRT NoAdt NoChd NoInf FFare isRT fareId
      = .error .typeError := by
  have hleg : buildLeg seg res bnd fareId 0 k = .error .typeError := by
    unfold buildLeg
    rw [hmiss]
  have hlegs : buildLegs seg res bnd fareId (k :: ks) 0 "" = .error .typeError := by
    unfold buildLegs
    rw [hleg]
    rfl
  have hpbd : processBound seg res fareId bnd "" false = .error .typeError := by
    unfold processBound
    rw [hfl]
    simp only [deref, Bind.bind, Except.bind]
    rw [hlegs]
  have hpbs : processBounds seg res fareId (bnd :: rest) "" false = .error .typeError := by
    unfold processBounds
    rw [hpbd]
    rfl
  unfold ConvertSegFinal convertCore
  rw [hb, hpbs]

theorem C6_amended_witness :
    ConvertSegFinal missSeg2 none "o" "d" "" "" 0 0 0 .jnull false 0
      = .error .typeError :=
  C6_amended_missing_leg_throws missSeg2 none "o" "d" "" "" 0 0 0 .jnull false 0
    { FL := some ["M", "N"] } [] "M" ["N"] rfl rfl rfl

/-! ### Claim C7 -/

/-- Claim C7 (counterexample): the claim says the input segment is read-only.
On `mutSeg` (one selectable fare option), the run writes the selected-fare
object, the hand-baggage flag and the cashback total back onto the input
segment. -/
theorem C7_counterexample :
    mutSeg.Fr = none ∧ (runSeg mutRun).map (fun s => s.Fr) = some (some mutOpt) ∧
    mutSeg.l_HB = none ∧
    (runSeg mutRun).map (fun s => s.l_HB) = some (some (.jbool true)) ∧
    mutSeg.CBAMT = none ∧
    (runSeg mutRun).map (fun s => s.CBAMT) = some (some (.jnum 3)) :=
  ⟨rfl, rfl, rfl, rfl, rfl, rfl⟩

/-- Claim C7 (amended): the transform may write exactly the six properties
`Fr`, `l_HB`, `CBAMT`, `Comm`, `TDS` and `SF` back onto the input segment;
on every completed run all other input-segment fields are unchanged. -/
theorem C7_amended_mutation_frame (seg : RawSegment) (res : Option ResData)
    (org des frArmy frArmyRT : String) (NoAdt NoChd NoInf : Int) (FFare : JVal)
    (isRT : Bool) (fareId : Nat) (r : ConvertResult) (seg2 : RawSegment)
    (h : ConvertSegFinal seg res org des frArmy frArmyRT NoAdt NoChd NoInf FFare isRT fareId
          = .ok (r, seg2)) :
    seg2 = { seg with
             Fr := seg2.Fr
             l_HB := seg2.l_HB
             CBAMT := seg2.CBAMT
             Comm := seg2.Comm
             TDS := seg2.TDS
             SF := seg2.SF } := by
  obtain ⟨out, hc, -⟩ := ConvertSegFinal_ok h
  exact convertCore_frame hc

theorem C7_amended_witness :
    mutPair.2 = { mutSeg with
                  Fr := mutPair.2.Fr
                  l_HB := mutPair.2.l_HB
                  CBAMT := mutPair.2.CBAMT
                  Comm := mutPair.2.Comm
                  TDS := mutPair.2.TDS
                  SF := mutPair.2.SF } :=
  C7_amended_mutation_frame mutSeg none "o" "d" "" "" 1 0 0 (.jstr "FF") false 0
    mutPair.1 mutPair.2 rfl

/-! ### Claim C4 -/

/-- Claim C4: with an empty (or absent) fare-option list — and hence no `Fr`
scratch property, which upstream never supplies — every aggregate pricing
field of a completed run's record falls back one-for-one to the segment's
flat fields, with no per-passenger-row aggregation. -/
theorem C4_flat_fallback (seg : RawSegment) (res : Option ResData)
    (org des frArmy frArmyRT : String) (NoAdt NoChd NoInf : Int) (FFare : JVal)
    (isRT : Bool) (fareId : Nat) (r : ConvertResult) (seg2 : RawSegment)
    (hnil : seg.lstFr = []) (hFrnone : seg.Fr = none)
    (h : ConvertSegFinal seg res org des frArmy frArmyRT NoAdt NoChd NoInf FFare isRT fareId
          = .ok (r, seg2)) :
    r.record.AdultPrice = seg.AP ∧ r.record.ChildPrice = seg.CP ∧
    r.record.InfantPrice = seg.IP ∧ r.record.TotalTax = seg.TT ∧
    r.record.TotalFare = seg.TF ∧ r.record.ttlDiscount = seg.TTDIS := by
  obtain ⟨out, hc, hr⟩ := ConvertSegFinal_ok h
  obtain ⟨bnds, idk, isHnd, out1, seg1, out2, hpb, hf, hp, ht⟩ := convertCore_ok hc
  have h0 : applyLHB seg fareId = seg := applyLHB_of_lstFr_nil hnil
  rw [h0, applyFare_nil hnil] at hf
  simp only [Except.ok.injEq, Prod.mk.injEq] at hf
  obtain ⟨ho1, hs1⟩ := hf
  have hFr1 : seg1.Fr = none := by rw [← hs1]; exact hFrnone
  obtain ⟨b0, hb0, ho2, hs2⟩ := applyPricing_ok_none hp hFr1
  obtain ⟨cc, hcc, ho3⟩ := applyTail_ok ht
  subst hr ho3 ho2
  rw [← hs1]
  simp only [ConvertResult.record, applyTailOut_AdultPrice, applyTailOut_ChildPrice,
    applyTailOut_InfantPrice, applyTailOut_TotalTax, applyTailOut_TotalFare,
    applyTailOut_ttlDiscount]
  exact ⟨rfl, rfl, rfl, rfl, rfl, rfl⟩

theorem C4_witness :
    flatPair.1.record.AdultPrice = .jnum 100 ∧
    flatPair.1.record.ChildPrice = .jnum 50 ∧
    flatPair.1.record.InfantPrice = .jnum 7 ∧
    flatPair.1.record.TotalTax = .jnum 20 ∧
    flatPair.1.record.TotalFare = .jnum 120 ∧
    flatPair.1.record.ttlDiscount = .jnum 3 :=
  C4_flat_fallback flatSeg none "o" "d" "" "" 0 0 0 .jnull false 0
    flatPair.1 flatPair.2 rfl rfl rfl

/-! ### Claim C10 -/

/-- Claim C10: with a non-empty fare-option list the record's `Fare` field is
exactly the caller-supplied previously-finalised fare object (line 455
overwrites the sub-record assembled on lines 444-454, which never reaches the
output); with no selected fare option the `Fare` field is null. -/
theorem C10_fare_final_override (seg : RawSegment) (res : Option ResData)
    (org des frArmy frArmyRT : String) (NoAdt NoChd NoInf : Int) (FFare : JVal)
    (isRT : Bool) (fareId : Nat) (r : ConvertResult) (seg2 : RawSegment)
    (h : ConvertSegFinal seg res org des frArmy frArmyRT NoAdt NoChd NoInf FFare isRT fareId
          = .ok (r, seg2)) :
    (seg.lstFr ≠ [] → r.record.Fare = FFare) ∧
    (seg.lstFr = [] → seg.Fr = none → r.record.Fare = .jnull) := by
  obtain ⟨out, hc, hr⟩ := ConvertSegFinal_ok h
  obtain ⟨bnds, idk, isHnd, out1, seg1, out2, hpb, hf, hp, ht⟩ := convertCore_ok hc
  obtain ⟨cc, hcc, ho3⟩ := applyTail_ok ht
  subst hr ho3
  constructor
  · intro hne
    have hne0 : (applyLHB seg fareId).lstFr ≠ [] := by
      rw [applyLHB_lstFr]; exact hne
    obtain ⟨fr, p0, hfr, hp0, ho1, hs1⟩ := applyFare_ok_of_ne_nil hf hne0
    have hFr1 : seg1.Fr = some fr := by rw [hs1]
    obtain ⟨b0, hb0, ho2, hs2⟩ := applyPricing_ok_some hp hFr1
    subst ho2
    simp only [ConvertResult.record]
    rw [applyTailOut_Fare]
    rfl
  · intro hnil hFrnone
    have h0 : applyLHB seg fareId = seg := applyLHB_of_lstFr_nil hnil
    rw [h0, applyFare_nil hnil] at hf
    simp only [Except.ok.injEq, Prod.mk.injEq] at hf
    obtain ⟨ho1, hs1⟩ := hf
    have hFr1 : seg1.Fr = none := by rw [← hs1]; exact hFrnone
    obtain ⟨b0, hb0, ho2, hs2⟩ := applyPricing_ok_none hp hFr1
    subst ho2
    simp only [ConvertResult.record]
    rw [applyTailOut_Fare, ← ho1]
    rfl

theorem C10_witness : aggPair.1.record.Fare = .jstr "FINALFARE" :=
  (C10_fare_final_override aggSeg none "o" "d" "" "" 2 3 1 (.jstr "FINALFARE") false 0
    aggPair.1 aggPair.2 rfl).1 (by decide)

/-! ### Selected-fare projection helpers -/

theorem applyPricingSelOut_CCL (seg1 : RawSegment) (out : SegOut) (fr : FareOption)
    (b0 : BndOut) (NoAdt NoChd NoInf : Int) (FFare : JVal) :
    (applyPricingSelOut seg1 out fr b0 NoAdt NoChd NoInf FFare).CCL = out.CCL := rfl

theorem applyPricingSelOut_IACL (seg1 : RawSegment) (out : SegOut) (fr : FareOption)
    (b0 : BndOut) (NoAdt NoChd NoInf : Int) (FFare : JVal) :
    (applyPricingSelOut seg1 out fr b0 NoAdt NoChd NoInf FFare).IACL = out.IACL := rfl

theorem applyPricingSelOut_CpnTxtS (seg1 : RawSegment) (out : SegOut) (fr : FareOption)
    (b0 : BndOut) (NoAdt NoChd NoInf : Int) (FFare : JVal) :
    (applyPricingSelOut seg1 out fr b0 NoAdt NoChd NoInf FFare).CpnTxtS = out.CpnTxtS := rfl

theorem applyPricingSelOut_CpnLstDis (seg1 : RawSegment) (out : SegOut) (fr : FareOption)
    (b0 : BndOut) (NoAdt NoChd NoInf : Int) (FFare : JVal) :
    (applyPricingSelOut seg1 out fr b0 NoAdt NoChd NoInf FFare).CpnLstDis = out.CpnLstDis := rfl

theorem applyPricingSelOut_AdultPrice (seg1 : RawSegment) (out : SegOut) (fr : FareOption)
    (b0 : BndOut) (NoAdt NoChd NoInf : Int) (FFare : JVal) :
    (applyPricingSelOut seg1 out fr b0 NoAdt NoChd NoInf FFare).AdultPrice =
      .jnum (aggregatePax fr.L_PF NoAdt NoChd NoInf).adult := rfl

theorem applyPricingSelOut_ChildPrice (seg1 : RawSegment) (out : SegOut) (fr : FareOption)
    (b0 : BndOut) (NoAdt NoChd NoInf : Int) (FFare : JVal) :
    (applyPricingSelOut seg1 out fr b0 NoAdt NoChd NoInf FFare).ChildPrice =
      .jnum (aggregatePax fr.L_PF NoAdt NoChd NoInf).child := rfl

theorem applyPricingSelOut_InfantPrice (seg1 : RawSegment) (out : SegOut) (fr : FareOption)
    (b0 : BndOut) (NoAdt NoChd NoInf : Int) (FFare : JVal) :
    (applyPricingSelOut seg1 out fr b0 NoAdt NoChd NoInf FFare).InfantPrice =
      .jnum (aggregatePax fr.L_PF NoAdt NoChd NoInf).infant := rfl

theorem applyPricingSelSeg_CBAMT (seg1 : RawSegment) (fr : FareOption)
    (NoAdt NoChd NoInf : Int) :
    (applyPricingSelSeg seg1 fr NoAdt NoChd NoInf).CBAMT =
      some (.jnum (aggregatePax fr.L_PF NoAdt NoChd NoInf).cashBack) := rfl

theorem applyPricingSelSeg_Comm (seg1 : RawSegment) (fr : FareOption)
    (NoAdt NoChd NoInf : Int) :
    (applyPricingSelSeg seg1 fr NoAdt NoChd NoInf).Comm =
      some (.jnum (aggregatePax fr.L_PF NoAdt NoChd NoInf).commission) := rfl

theorem applyPricingSelSeg_TDS (seg1 : RawSegment) (fr : FareOption)
    (NoAdt NoChd NoInf : Int) :
    (applyPricingSelSeg seg1 fr NoAdt NoChd NoInf).TDS =
      some (.jnum (aggregatePax fr.L_PF NoAdt NoChd NoInf).tds) := rfl

theorem applyPricingSelSeg_SF (seg1 : RawSegment) (fr : FareOption)
    (NoAdt NoChd NoInf : Int) :
    (applyPricingSelSeg seg1 fr NoAdt NoChd NoInf).SF =
      some (.jnum (aggregatePax fr.L_PF NoAdt NoChd NoInf).serviceFee) := rfl

theorem applyFareOut_coupon_flagged (seg : RawSegment) (out : SegOut) (fr : FareOption)
    (p0 : PaxFare) (fareId : Nat) (c : JVal)
    (hccl : fr.CouponCodeList = some c) (hflag : jsIsTrueOpt seg.I_RT = true) :
    (applyFareOut seg out fr p0 fareId).CCL = .jstr "" ∧
    (applyFareOut seg out fr p0 fareId).IACL = .jbool false ∧
    (applyFareOut seg out fr p0 fareId).CpnTxtS = .jstr "" ∧
    (applyFareOut seg out fr p0 fareId).CpnLstDis = some (.jnum 0) := by
  simp only [applyFareOut, hccl, hflag]
  simp

theorem applyFareOut_coupon_unflagged (seg : RawSegment) (out : SegOut) (fr : FareOption)
    (p0 : PaxFare) (fareId : Nat) (c : JVal)
    (hccl : fr.CouponCodeList = some c) (hflag : jsIsTrueOpt seg.I_RT = false) :
    (applyFareOut seg out fr p0 fareId).CCL = c ∧
    (applyFareOut seg out fr p0 fareId).IACL = fr.isAddCL ∧
    (applyFareOut seg out fr p0 fareId).CpnTxtS = fr.CpnTxtS ∧
    (applyFareOut seg out fr p0 fareId).CpnLstDis = some (.jnum fr.DA) := by
  simp only [applyFareOut, hccl, hflag]
  simp

/-! ### Claim C9 -/

/-- Claim C9: with a non-empty fare-option list and an in-range fare index,
the record's coupon code is the selected option's `CC` exactly when the
option's discounted total (`TTDIS`) is strictly below its total fare (`TF`),
and the empty string otherwise; and on every completed run an empty resolved
coupon code forces the discount amount to exactly zero. -/
theorem C9_coupon_code_discount (seg : RawSegment) (res : Option ResData)
    (org des frArmy frArmyRT : String) (NoAdt NoChd NoInf : Int) (FFare : JVal)
    (isRT : Bool) (fareId : Nat) (r : ConvertResult) (seg2 : RawSegment)
    (h : ConvertSegFinal seg res org des frArmy frArmyRT NoAdt NoChd NoInf FFare isRT fareId
          = .ok (r, seg2)) :
    (∀ (hne : seg.lstFr ≠ []) (hlt : fareId < seg.lstFr.length),
       ((seg.lstFr[fareId]).TTDIS < (seg.lstFr[fareId]).TF →
          r.record.CouponCode = .jstr (seg.lstFr[fareId]).CC) ∧
       (¬ (seg.lstFr[fareId]).TTDIS < (seg.lstFr[fareId]).TF →
          r.record.CouponCode = .jstr "")) ∧
    (r.record.CouponCode = .jstr "" → r.record.DiscountAmount = .jnum 0) := by
  obtain ⟨out, hc, hr⟩ := ConvertSegFinal_ok h
  have hframe := convertCore_frame hc
  obtain ⟨bnds, idk, isHnd, out1, seg1, out2, hpb, hf, hp, ht⟩ := convertCore_ok hc
  obtain ⟨cc, hcc, ho3⟩ := applyTail_ok ht
  subst hr ho3
  have hl2 : seg2.lstFr = seg.lstFr := by rw [hframe]
  constructor
  · intro hne hlt
    have hsome : seg.lstFr[fareId]? = some seg.lstFr[fareId] :=
      List.getElem?_eq_getElem hlt
    unfold tailCouponCode at hcc
    rw [hl2, if_neg hne, hsome] at hcc
    dsimp only at hcc
    simp only [Except.ok.injEq] at hcc
    subst hcc
    constructor
    · intro hdis
      simp only [ConvertResult.record]
      rw [applyTailOut_CouponCode, if_pos hdis]
    · intro hdis
      simp only [ConvertResult.record]
      rw [applyTailOut_CouponCode, if_neg hdis]
  · intro hemp
    simp only [ConvertResult.record] at hemp ⊢
    rw [applyTailOut_CouponCode] at hemp
    rw [applyTailOut_DiscountAmount, hemp]
    rfl

theorem C9_witness :
    aggPair.1.record.CouponCode = .jstr "CD" ∧
    (aggPair.1.record.CouponCode = .jstr "" →
      aggPair.1.record.DiscountAmount = .jnum 0) := by
  have h := C9_coupon_code_discount aggSeg none "o" "d" "" "" 2 3 1
    (.jstr "FINALFARE") false 0 aggPair.1 aggPair.2 rfl
  exact ⟨(h.1 (by decide) (by decide)).1 (by decide), h.2⟩

/-! ### Claim C8 -/

/-- Claim C8: when the selected option carries a non-null coupon-code list,
a segment flagged round-trip-combined (`I_RT == true`) has all four coupon
fields forcibly cleared (empty code list, additional-coupon flag false,
empty display text, zero coupon-list discount); a segment not so flagged
adopts the option's coupon list, additional-coupon flag, display text and
discount amount verbatim. -/
theorem C8_coupon_suppression (seg : RawSegment) (res : Option ResData)
    (org des frArmy frArmyRT : String) (NoAdt NoChd NoInf : Int) (FFare : JVal)
    (isRT : Bool) (fareId : Nat) (r : ConvertResult) (seg2 : RawSegment)
    (ccl : JVal)
    (hne : seg.lstFr ≠ []) (hlt : fareId < seg.lstFr.length)
    (hccl : (seg.lstFr[fareId]).CouponCodeList = some ccl)
    (h : ConvertSegFinal seg res org des frArmy frArmyRT NoAdt NoChd NoInf FFare isRT fareId
          = .ok (r, seg2)) :
    (seg.I_RT = some (.jbool true) →
       r.record.CCL = .jstr "" ∧ r.record.IACL = .jbool false ∧
       r.record.CpnTxtS = .jstr "" ∧ r.record.CpnLstDis = some (.jnum 0)) ∧
    (jsIsTrueOpt seg.I_RT = false →
       r.record.CCL = ccl ∧ r.record.IACL = (seg.lstFr[fareId]).isAddCL ∧
       r.record.CpnTxtS = (seg.lstFr[fareId]).CpnTxtS ∧
       r.record.CpnLstDis = some (.jnum (seg.lstFr[fareId]).DA)) := by
  obtain ⟨out, hc, hr⟩ := ConvertSegFinal_ok h
  obtain ⟨bnds, idk, isHnd, out1, seg1, out2, hpb, hf, hp, ht⟩ := convertCore_ok hc
  obtain ⟨cc, hcc, ho3⟩ := applyTail_ok ht
  subst hr ho3
  have hne0 : (applyLHB seg fareId).lstFr ≠ [] := by
    rw [applyLHB_lstFr]; exact hne
  obtain ⟨fr, p0, hfr, hp0, ho1, hs1⟩ := applyFare_ok_of_ne_nil hf hne0
  rw [applyLHB_lstFr, List.getElem?_eq_getElem hlt] at hfr
  simp only [Option.some.injEq] at hfr
  subst hfr
  have hFr1 : seg1.Fr = some (seg.lstFr[fareId]) := by rw [hs1]
  obtain ⟨b0, hb0, ho2, hs2⟩ := applyPricing_ok_some hp hFr1
  subst ho2 ho1
  simp only [ConvertResult.record, applyTailOut_CCL, applyTailOut_IACL,
    applyTailOut_CpnTxtS, applyTailOut_CpnLstDis, applyPricingSelOut_CCL,
    applyPricingSelOut_IACL, applyPricingSelOut_CpnTxtS, applyPricingSelOut_CpnLstDis]
  constructor
  · intro hRT
    have hflag : jsIsTrueOpt (applyLHB seg fareId).I_RT = true := by
      rw [applyLHB_I_RT, hRT]; rfl
    exact applyFareOut_coupon_flagged (applyLHB seg fareId) _ _ p0 fareId ccl hccl hflag
  · intro hRT
    have hflag : jsIsTrueOpt (applyLHB seg fareId).I_RT = false := by
      rw [applyLHB_I_RT]; exact hRT
    exact applyFareOut_coupon_unflagged (applyLHB seg fareId) _ _ p0 fareId ccl hccl hflag

theorem C8_witness :
    rtPair.1.record.CCL = .jstr "" ∧ rtPair.1.record.IACL = .jbool false ∧
    rtPair.1.record.CpnTxtS = .jstr "" ∧ rtPair.1.record.CpnLstDis = some (.jnum 0) :=
  (C8_coupon_suppression rtSeg none "o" "d" "" "" 1 0 0 .jnull false 0
    rtPair.1 rtPair.2 (.jstr "SAVE,X") (by decide) (by decide) rfl rfl).1 rfl

/-! ### Claim C3 -/

/-- Claim C3: with a non-empty fare-option list and an in-range fare index,
on every completed run the record's adult/child/infant prices are the sums,
over exactly the rows whose passenger-type label case-insensitively matches
ADULT/CHILD/INFANT, of the row's base fare times the corresponding passenger
count; and the optional commission, cashback, TDS, service-fee and
transaction-fee fields contribute to their running totals only when present
on a row (zero contribution otherwise, never an error). -/
theorem C3_price_aggregation (seg : RawSegment) (res : Option ResData)
    (org des frArmy frArmyRT : String) (NoAdt NoChd NoInf : Int) (FFare : JVal)
    (isRT : Bool) (fareId : Nat) (r : ConvertResult) (seg2 : RawSegment)
    (hne : seg.lstFr ≠ []) (hlt : fareId < seg.lstFr.length)
    (h : ConvertSegFinal seg res org des frArmy frArmyRT NoAdt NoChd NoInf FFare isRT fareId
          = .ok (r, seg2)) :
    r.record.AdultPrice =
      .jnum (typeBaseSum (seg.lstFr[fareId]).L_PF "ADULT" NoAdt) ∧
    r.record.ChildPrice =
      .jnum (typeBaseSum (seg.lstFr[fareId]).L_PF "CHILD" NoChd) ∧
    r.record.InfantPrice =
      .jnum (typeBaseSum (seg.lstFr[fareId]).L_PF "INFANT" NoInf) ∧
    r.record.Comm =
      some (.jnum (optTotalSum (seg.lstFr[fareId]).L_PF (fun row => row.COM) NoAdt NoChd NoInf)) ∧
    r.record.CBAMT =
      some (.jnum (optTotalSum (seg.lstFr[fareId]).L_PF (fun row => row.CB) NoAdt NoChd NoInf)) ∧
    r.record.TDS =
      some (.jnum (optTotalSum (seg.lstFr[fareId]).L_PF (fun row => row.TDS) NoAdt NoChd NoInf)) ∧
    r.record.SF =
      some (.jnum (optTotalSum (seg.lstFr[fareId]).L_PF (fun row => row.SF) NoAdt NoChd NoInf)) ∧
    (aggregatePax (seg.lstFr[fareId]).L_PF NoAdt NoChd NoInf).transactionFees =
      optTotalSum (seg.lstFr[fareId]).L_PF (fun row => row.TA) NoAdt NoChd NoInf := by
  obtain ⟨out, hc, hr⟩ := ConvertSegFinal_ok h
  obtain ⟨bnds, idk, isHnd, out1, seg1, out2, hpb, hf, hp, ht⟩ := convertCore_ok hc
  obtain ⟨cc, hcc, ho3⟩ := applyTail_ok ht
  subst hr ho3
  have hne0 : (applyLHB seg fareId).lstFr ≠ [] := by
    rw [applyLHB_lstFr]; exact hne
  obtain ⟨fr, p0, hfr, hp0, ho1, hs1⟩ := applyFare_ok_of_ne_nil hf hne0
  rw [applyLHB_lstFr, List.getElem?_eq_getElem hlt] at hfr
  simp only [Option.some.injEq] at hfr
  subst hfr
  have hFr1 : seg1.Fr = some (seg.lstFr[fareId]) := by rw [hs1]
  obtain ⟨b0, hb0, ho2, hs2⟩ := applyPricing_ok_some hp hFr1
  subst ho2 hs2
  simp only [ConvertResult.record, applyTailOut_AdultPrice, applyTailOut_ChildPrice,
    applyTailOut_InfantPrice, applyTailOut_Comm, applyTailOut_CBAMT, applyTailOut_TDS,
    applyTailOut_SF, applyPricingSelOut_AdultPrice, applyPricingSelOut_ChildPrice,
    applyPricingSelOut_InfantPrice, applyPricingSelSeg_CBAMT, applyPricingSelSeg_Comm,
    applyPricingSelSeg_TDS, applyPricingSelSeg_SF]
  refine ⟨?_, ?_, ?_, ?_, ?_, ?_, ?_, ?_⟩
  · rw [aggregatePax_adult]
  · rw [aggregatePax_child]
  · rw [aggregatePax_infant]
  · rw [aggregatePax_commission]
  · rw [aggregatePax_cashBack]
  · rw [aggregatePax_tds]
  · rw [aggregatePax_serviceFee]
  · rw [aggregatePax_transactionFees]

theorem C3_witness :
    aggPair.1.record.AdultPrice = .jnum 200 ∧
    aggPair.1.record.ChildPrice = .jnum 150 ∧
    aggPair.1.record.InfantPrice = .jnum 10 ∧
    aggPair.1.record.Comm = some (.jnum 4) ∧
    aggPair.1.record.CBAMT = some (.jnum 12) ∧
    aggPair.1.record.TDS = some (.jnum 2) ∧
    aggPair.1.record.SF = some (.jnum 5) ∧
    (aggregatePax aggRows 2 3 1).transactionFees = 6 := by
  have h := C3_price_aggregation aggSeg none "o" "d" "" "" 2 3 1
    (.jstr "FINALFARE") false 0 aggPair.1 aggPair.2 (by decide) (by decide) rfl
  exact ⟨h.1, h.2.1, h.2.2.1, h.2.2.2.1, h.2.2.2.2.1, h.2.2.2.2.2.1,
    h.2.2.2.2.2.2.1, h.2.2.2.2.2.2.2⟩
